import Mathlib

/-!
Shallow embedding of the chess rules engine in `src/chess.py` (class `VideoChess`).

Modelling conventions:
- Python board cells hold `None` or a one-character piece string; here a cell is
  `Option Piece` with `Piece` carrying the kind (the lowercase letter) and the
  color (the character case, `_color` in the source).
- Python `int` square coordinates are `Int`.  List indexing follows Python:
  a negative index wraps once from the end, any other out-of-range index is an
  `IndexError`, i.e. `none` here (`pyIndex`).
- Every operation that can raise in Python returns `Option _`, with `none` for
  the raised exception.  In particular the source calls three methods that are
  not defined anywhere on the class - `_attacked` (castling generation),
  `_clear_straight` and `_clear_diagonal` (rook/bishop attack tests) - so the
  corresponding call sites are `none` (AttributeError).  Applying a castling
  move indexes the board list with a tuple (`self.board[rook_to]`), a
  `TypeError`, hence `none` as well.
- Boards built by the class are always 8x8 (`__init__` makes an 8x8 grid and
  assignment preserves shape); `WFState` records this shape plus the in-range
  en-passant target used by the bounds lemmas.
-/

namespace VideoChess

/-- Piece color; the source encodes it as the character case (`_color`). -/
inductive Color
  | white
  | black
deriving DecidableEq, Repr

def Color.other : Color → Color
  | .white => .black
  | .black => .white

/-- Piece kind; the source encodes it as the lowercase letter (`piece.lower()`). -/
inductive PieceKind
  | pawn
  | knight
  | bishop
  | rook
  | queen
  | king
deriving DecidableEq, Repr

structure Piece where
  kind : PieceKind
  color : Color
deriving DecidableEq, Repr

/-- Castling side of a generated castle move (`castle='K'` / `castle='Q'`). -/
inductive CSide
  | kingside
  | queenside
deriving DecidableEq, Repr

/-- A move dict `{'start': (r1,c1), 'end': (r2,c2), ...}` from `_create_move`;
`ep` is the presence of the `en_passant` key, `castle` of the `castle` key. -/
structure Move where
  sr : Int
  sc : Int
  er : Int
  ec : Int
  ep : Bool
  castle : Option CSide
deriving DecidableEq, Repr

abbrev Board := List (List (Option Piece))

/-- Per-color castling rights `{'K': bool, 'Q': bool}`. -/
structure CRights where
  K : Bool
  Q : Bool
deriving DecidableEq, Repr

/-- The mutable state of the `VideoChess` object (its fields in `__init__`). -/
structure GameState where
  board : Board
  currentPlayer : Color
  castleW : CRights
  castleB : CRights
  enPassant : Option (Int × Int)
  moveNumber : Nat
  halfmove : Nat
  history : List Board
  check : Bool
deriving DecidableEq, Repr

def GameState.castling (st : GameState) : Color → CRights
  | .white => st.castleW
  | .black => st.castleB

/-- Python list indexing: in-range index, one negative wrap, else IndexError. -/
def pyIndex (len : Nat) (i : Int) : Option Nat :=
  if 0 ≤ i ∧ i < (len : Int) then some i.toNat
  else if -(len : Int) ≤ i ∧ i < 0 then some (i + len).toNat
  else none

def listGetI {α : Type} (l : List α) (i : Int) : Option α :=
  (pyIndex l.length i).bind fun n => l.get? n

/-- `self.board[r][c]` as a plain cell read.  A read that would raise in Python
(only possible on a non-8x8 board, which the class never builds) is collapsed
to an empty cell; the call sites that would crash on it fail for other reasons. -/
def bget (b : Board) (r c : Int) : Option Piece :=
  match listGetI b r with
  | none => none
  | some row => (listGetI row c).getD none

/-- `self.board[r][c] = v`: `none` when the assignment would raise IndexError. -/
def bset (b : Board) (r c : Int) (v : Option Piece) : Option Board :=
  (pyIndex b.length r).bind fun ri =>
    (b.get? ri).bind fun row =>
      (pyIndex row.length c).map fun ci =>
        b.set ri (row.set ci v)

/-- `_is_valid` -/
def isValid (r c : Int) : Bool :=
  (0 ≤ r && r < 8) && (0 ≤ c && c < 8)

/-- `_is_empty` -/
def isEmpty (st : GameState) (r c : Int) : Bool :=
  isValid r c && (bget st.board r c).isNone

/-- `_is_enemy` -/
def isEnemy (st : GameState) (r c : Int) : Bool :=
  isValid r c &&
    match bget st.board r c with
    | some p => decide (p.color ≠ st.currentPlayer)
    | none => false

/-- `_can_move` -/
def canMove (st : GameState) (r c : Int) : Bool :=
  isEmpty st r c || isEnemy st r c

/-- `_create_move` for a plain move (no keyword arguments). -/
def mkMove (r1 c1 r2 c2 : Int) : Move :=
  ⟨r1, c1, r2, c2, false, none⟩

/-- The `direction` local of `_pawn_moves`. -/
def pawnDir (st : GameState) : Int :=
  if st.currentPlayer = .white then -1 else 1

/-- The `start_row` local of `_pawn_moves`. -/
def pawnStartRow (st : GameState) : Int :=
  if st.currentPlayer = .white then 6 else 1

/-- `_pawn_moves`: forward pushes, then for dc in (-1, 1) the diagonal capture
and the en-passant candidate. -/
def pawnMoves (st : GameState) (row col : Int) : List Move :=
  (if isEmpty st (row + pawnDir st) col then
    mkMove row col (row + pawnDir st) col ::
      (if row = pawnStartRow st ∧ isEmpty st (row + 2 * pawnDir st) col then
        [mkMove row col (row + 2 * pawnDir st) col]
      else [])
  else []) ++
  (([-1, 1] : List Int).flatMap fun dc =>
    (if isEnemy st (row + pawnDir st) (col + dc) then
      [mkMove row col (row + pawnDir st) (col + dc)]
    else []) ++
    (if st.enPassant = some (row + pawnDir st, col + dc) then
      [⟨row, col, row + pawnDir st, col + dc, true, none⟩]
    else []))

def knightDeltas : List (Int × Int) :=
  [(-2, -1), (-2, 1), (-1, -2), (-1, 2), (1, -2), (1, 2), (2, -1), (2, 1)]

/-- `_knight_moves` -/
def knightMoves (st : GameState) (row col : Int) : List Move :=
  knightDeltas.flatMap fun d =>
    if canMove st (row + d.1) (col + d.2) then
      [mkMove row col (row + d.1) (col + d.2)]
    else []

/-- One direction of `_slide`'s while loop; fuel 8 covers any in-board ray. -/
def slideRay (st : GameState) (row col dr dc : Int) : Nat → Int → Int → List Move
  | 0, _, _ => []
  | fuel + 1, r, c =>
    if isValid r c then
      match bget st.board r c with
      | none => mkMove row col r c :: slideRay st row col dr dc fuel (r + dr) (c + dc)
      | some p => if p.color ≠ st.currentPlayer then [mkMove row col r c] else []
    else []

/-- `_slide` -/
def slide (st : GameState) (row col : Int) (directions : List (Int × Int)) : List Move :=
  directions.flatMap fun d => slideRay st row col d.1 d.2 8 (row + d.1) (col + d.2)

/-- `_bishop_moves` -/
def bishopMoves (st : GameState) (row col : Int) : List Move :=
  slide st row col [(-1, -1), (-1, 1), (1, -1), (1, 1)]

/-- `_rook_moves` -/
def rookMoves (st : GameState) (row col : Int) : List Move :=
  slide st row col [(-1, 0), (1, 0), (0, -1), (0, 1)]

/-- `_queen_moves` -/
def queenMoves (st : GameState) (row col : Int) : List Move :=
  rookMoves st row col ++ bishopMoves st row col

/-- The fixed-offset part of `_king_moves`. -/
def kingNormalMoves (st : GameState) (row col : Int) : List Move :=
  ([-1, 0, 1] : List Int).flatMap fun dr =>
    ([-1, 0, 1] : List Int).flatMap fun dc =>
      if (dr, dc) ≠ ((0 : Int), (0 : Int)) ∧ canMove st (row + dr) (col + dc) = true then
        [mkMove row col (row + dr) (col + dc)]
      else []

/-- `_king_moves`.  The castling branches evaluate `not self._attacked(...)`
once the rights and emptiness guards pass, but `_attacked` is not defined
anywhere on the class, so reaching that test raises AttributeError (`none`);
consequently a castle move is never actually appended. -/
def kingMoves (st : GameState) (row col : Int) : Option (List Move) :=
  let normal := kingNormalMoves st row col
  let rights := st.castling st.currentPlayer
  (if st.check = false ∧ rights.K = true then
    if (isEmpty st row 5 && isEmpty st row 6) = true then none
    else some []
  else some []).bind fun ks =>
  (if st.check = false ∧ rights.Q = true then
    if (isEmpty st row 1 && isEmpty st row 2 && isEmpty st row 3) = true then none
    else some []
  else some []).bind fun qs =>
  some (normal ++ ks ++ qs)

/-- `_piece_moves`; called on an empty square it would raise (`None.lower()`). -/
def pieceMoves (st : GameState) (row col : Int) : Option (List Move) :=
  match bget st.board row col with
  | none => none
  | some p =>
    match p.kind with
    | .pawn => some (pawnMoves st row col)
    | .knight => some (knightMoves st row col)
    | .bishop => some (bishopMoves st row col)
    | .rook => some (rookMoves st row col)
    | .queen => some (queenMoves st row col)
    | .king => kingMoves st row col

/-- The row-major scan `for r in range(8): for c in range(8)`, as the literal
list of its 64 iterations. -/
def squares8 : List (Int × Int) :=
  [(0, 0), (0, 1), (0, 2), (0, 3), (0, 4), (0, 5), (0, 6), (0, 7), (1, 0), (1, 1), (1, 2), (1, 3), (1, 4), (1, 5), (1, 6), (1, 7), (2, 0), (2, 1), (2, 2), (2, 3), (2, 4), (2, 5), (2, 6), (2, 7), (3, 0), (3, 1), (3, 2), (3, 3), (3, 4), (3, 5), (3, 6), (3, 7), (4, 0), (4, 1), (4, 2), (4, 3), (4, 4), (4, 5), (4, 6), (4, 7), (5, 0), (5, 1), (5, 2), (5, 3), (5, 4), (5, 5), (5, 6), (5, 7), (6, 0), (6, 1), (6, 2), (6, 3), (6, 4), (6, 5), (6, 6), (6, 7), (7, 0), (7, 1), (7, 2), (7, 3), (7, 4), (7, 5), (7, 6), (7, 7)]

/-- One iteration of the collection loop of `get_legal_moves`: the moves
contributed by one square (`if piece and self._color(piece) == ...`). -/
def squareMoves (st : GameState) (sq : Int × Int) : Option (List Move) :=
  match bget st.board sq.1 sq.2 with
  | some p =>
    if p.color = st.currentPlayer then pieceMoves st sq.1 sq.2 else some []
  | none => some []

/-- The collection loop of `get_legal_moves`: `moves += self._piece_moves(r, c)`
for every square holding a piece of the side to move, in row-major order. -/
def collectMoves (st : GameState) : List (Int × Int) → Option (List Move)
  | [] => some []
  | sq :: rest =>
    (squareMoves st sq).bind fun new =>
    (collectMoves st rest).map fun ms => new ++ ms

/-- The pseudo-legal move list of `get_legal_moves` (before filtering). -/
def pseudoMoves (st : GameState) : Option (List Move) :=
  collectMoves st squares8

/-- `_clear_path`'s walk; fuel 8 covers any pair of aligned in-board squares. -/
def clearPathAux (b : Board) (dr dc : Int) : Nat → Int → Int → Int → Int → Option Bool
  | 0, _, _, _, _ => none
  | fuel + 1, r, c, r2, c2 =>
    if r = r2 ∧ c = c2 then some true
    else
      match bget b r c with
      | some _ => some false
      | none => clearPathAux b dr dc fuel (r + dr) (c + dc) r2 c2

/-- `_clear_path` -/
def clearPath (b : Board) (r1 c1 r2 c2 : Int) : Option Bool :=
  let dr := (r2 - r1) / (max 1 ((r2 - r1).natAbs : Int))
  let dc := (c2 - c1) / (max 1 ((c2 - c1).natAbs : Int))
  clearPathAux b dr dc 8 (r1 + dr) (c1 + dc) r2 c2

/-- `_attacks`.  The rook branch calls `self._clear_straight` and the bishop
branch `self._clear_diagonal`; neither method exists on the class, so when the
alignment guard passes the call raises AttributeError (`none`).  Both guards
short-circuit, so a misaligned rook/bishop yields `False` without raising. -/
def attacks (st : GameState) (s t : Int × Int) : Option Bool :=
  match bget st.board s.1 s.2 with
  | none => none
  | some p =>
    let dr := t.1 - s.1
    let dc := t.2 - s.2
    match p.kind with
    | .pawn =>
      let direction : Int := if p.color = .black then 1 else -1
      some (decide (dr = direction ∧ dc.natAbs = 1))
    | .knight => some (decide (dr ^ 2 + dc ^ 2 = 5))
    | .king => some (decide (max dr.natAbs dc.natAbs = 1))
    | .bishop => if dr ^ 2 = dc ^ 2 then none else some false
    | .rook => if dr = 0 ∨ dc = 0 then none else some false
    | .queen =>
      if dr ^ 2 = dc ^ 2 ∨ dr = 0 ∨ dc = 0 then clearPath st.board s.1 s.2 t.1 t.2
      else some false

/-- The `next(...)` king scan in `_in_check`; `none` is StopIteration. -/
def findKing (st : GameState) (color : Color) : Option (Int × Int) :=
  squares8.find? fun sq =>
    match bget st.board sq.1 sq.2 with
    | some p => p.kind = PieceKind.king && p.color = color
    | none => false

/-- `_all_enemy_positions` -/
def allEnemyPositions (st : GameState) (color : Color) : List (Int × Int) :=
  squares8.filter fun sq =>
    match bget st.board sq.1 sq.2 with
    | some p => p.color = color.other
    | none => false

/-- The lazy `any(self._attacks(pos, king_pos) for pos in ...)`. -/
def anyAttacks (st : GameState) (kp : Int × Int) : List (Int × Int) → Option Bool
  | [] => some false
  | pos :: rest =>
    match attacks st pos kp with
    | none => none
    | some true => some true
    | some false => anyAttacks st kp rest

/-- `_in_check` -/
def inCheck (st : GameState) (color : Color) : Option Bool :=
  match findKing st color with
  | none => none
  | some kp => anyAttacks st kp (allEnemyPositions st color)

/-- The auto-queen promotion step of `_apply_move`: the `piece` value after
`if piece.lower() == 'p' and er in [0,7]: piece = 'Q' if ... else 'q'`. -/
def promoted (st : GameState) (m : Move) (p0 : Piece) : Piece :=
  if p0.kind = .pawn ∧ (m.er = 0 ∨ m.er = 7) then Piece.mk .queen st.currentPlayer
  else p0

/-- `_apply_move`.  A castle move crashes: `self.board[rook_to]` indexes the
board list with a tuple (TypeError).  A move from an empty square crashes at
`piece.lower()`.  The recomputed check flag can itself raise inside `_in_check`. -/
def applyMove (st : GameState) (m : Move) : Option GameState :=
  match bget st.board m.sr m.sc with
  | none => none
  | some piece0 =>
    if m.castle.isSome then none
    else
      (if m.ep then
        (bset st.board m.sr m.ec none).map fun b => (b, bget st.board m.sr m.ec)
      else some (st.board, bget st.board m.er m.ec)).bind fun bc =>
      let b1 := bc.1
      let captured := bc.2
      let crights := st.castling st.currentPlayer
      let crights' :=
        if piece0.kind = .king then CRights.mk false false
        else if piece0.kind = .rook then
          CRights.mk (if m.sc = 7 then false else crights.K)
            (if m.sc = 0 then false else crights.Q)
        else crights
      let piece := promoted st m piece0
      (bset b1 m.sr m.sc none).bind fun b2 =>
      (bset b2 m.er m.ec (some piece)).bind fun b3 =>
      let ep' :=
        if piece.kind = .pawn ∧ (m.sr - m.er).natAbs = 2 then
          some (m.er + (if st.currentPlayer = .white then 1 else -1), m.ec)
        else none
      let newPlayer := st.currentPlayer.other
      let stMid : GameState :=
        { board := b3
          currentPlayer := newPlayer
          castleW := if st.currentPlayer = .white then crights' else st.castleW
          castleB := if st.currentPlayer = .black then crights' else st.castleB
          enPassant := ep'
          moveNumber := st.moveNumber + (if newPlayer = .white then 1 else 0)
          -- `piece` here is the value after the auto-queen reassignment, as in the
          -- source, where the promotion branch rebinds `piece` before this line
          halfmove := if piece.kind = .pawn ∨ captured.isSome then 0 else st.halfmove + 1
          history := st.history ++ [b3]
          check := false }
      (inCheck stMid newPlayer).map fun chk => { stMid with check := chk }

/-- `_leaves_check` -/
def leavesCheck (st : GameState) (m : Move) : Option Bool :=
  (applyMove st m).bind fun temp => inCheck temp st.currentPlayer

/-- The legality filter `[m for m in moves if not self._leaves_check(m)]`. -/
def filterLegal (st : GameState) : List Move → Option (List Move)
  | [] => some []
  | m :: rest =>
    match leavesCheck st m with
    | none => none
    | some b => (filterLegal st rest).map fun l => if b then l else m :: l

/-- `get_legal_moves` -/
def getLegalMoves (st : GameState) : Option (List Move) :=
  (pseudoMoves st).bind (filterLegal st)

/-- Convenience: "m is in the successfully computed legal-move list". -/
def legalInB (st : GameState) (m : Move) : Bool :=
  match getLegalMoves st with
  | some ms => ms.contains m
  | none => false

def fileChar (c : Int) : Char := Char.ofNat (97 + c).toNat

def pieceUpper : PieceKind → String
  | .pawn => "P"
  | .knight => "N"
  | .bishop => "B"
  | .rook => "R"
  | .queen => "Q"
  | .king => "K"

/-- `_to_san`; reading an empty origin square would raise (`None.upper()`). -/
def toSan (st : GameState) (m : Move) : Option String :=
  match bget st.board m.sr m.sc with
  | none => none
  | some p =>
    let pieceStr := if p.kind = .pawn then "" else pieceUpper p.kind
    let fileStr := String.mk [fileChar m.sc]
    let captureStr := if (bget st.board m.er m.ec).isSome then "x" else ""
    let destStr := String.mk [fileChar m.ec] ++ toString (8 - m.er)
    some (pieceStr ++ fileStr ++ captureStr ++ destStr)

/-- `_parse_san`: first legal move whose rendering matches, `some none` when
no move matches (Python `None`), `none` when a rendering itself raises. -/
def parseSan (st : GameState) (san : String) : List Move → Option (Option Move)
  | [] => some none
  | m :: rest =>
    match toSan st m with
    | none => none
    | some s => if s = san then some (some m) else parseSan st san rest

/-- `[self._to_san(m) for m in legal_moves]` in `play`. -/
def renderAll (st : GameState) : List Move → Option (List String)
  | [] => some []
  | m :: rest => (toSan st m).bind fun s => (renderAll st rest).map fun l => s :: l

/-- The move-selection logic of one `play` iteration: with a non-empty legal
list, the move handed to `_apply_move` is the parse result when the text
resolves, else `legal_moves[0]`.  (`none`: empty list, i.e. the loop breaks
with a terminal position, or an exception while rendering/parsing.) -/
def playChosen (st : GameState) (action : String) : Option Move :=
  (getLegalMoves st).bind fun legalMoves =>
    match legalMoves with
    | [] => none
    | m0 :: rest =>
      (renderAll st (m0 :: rest)).bind fun _sanMoves =>
        (parseSan st action (m0 :: rest)).map fun r =>
          match r with
          | some m => m
          | none => m0

def backRank (c : Color) : List (Option Piece) :=
  [some ⟨.rook, c⟩, some ⟨.knight, c⟩, some ⟨.bishop, c⟩, some ⟨.queen, c⟩,
    some ⟨.king, c⟩, some ⟨.bishop, c⟩, some ⟨.knight, c⟩, some ⟨.rook, c⟩]

def pawnRank (c : Color) : List (Option Piece) :=
  List.replicate 8 (some ⟨.pawn, c⟩)

def emptyRank : List (Option Piece) := List.replicate 8 none

/-- `__init__` + `_initialize_board`. -/
def initialState : GameState :=
  { board :=
      [backRank .black, pawnRank .black, emptyRank, emptyRank,
        emptyRank, emptyRank, pawnRank .white, backRank .white]
    currentPlayer := .white
    castleW := ⟨true, true⟩
    castleB := ⟨true, true⟩
    enPassant := none
    moveNumber := 1
    halfmove := 0
    history := []
    check := false }

/-- Run a sequence of moves, insisting each is in the legal list of its turn. -/
def applyGame (st : GameState) : List Move → Option GameState
  | [] => some st
  | m :: rest =>
    (getLegalMoves st).bind fun ms =>
      if m ∈ ms then (applyMove st m).bind fun st' => applyGame st' rest
      else none

/-- Reachability: the initial position, closed under applying legal moves. -/
inductive Reachable : GameState → Prop
  | init : Reachable initialState
  | step {st st' : GameState} {ms : List Move} {m : Move} :
      Reachable st → getLegalMoves st = some ms → m ∈ ms →
      applyMove st m = some st' → Reachable st'

/-- In-board square, the spec's `Square` domain (`row/column ∈ [0,8)`). -/
def inBoard (r c : Int) : Prop := 0 ≤ r ∧ r < 8 ∧ 0 ≤ c ∧ c < 8

instance (r c : Int) : Decidable (inBoard r c) :=
  inferInstanceAs (Decidable (0 ≤ r ∧ r < 8 ∧ 0 ≤ c ∧ c < 8))

/-- The 8x8 shape every board built by the class has. -/
def WFBoard (b : Board) : Prop := b.length = 8 ∧ ∀ row ∈ b, row.length = 8

instance (b : Board) : Decidable (WFBoard b) :=
  inferInstanceAs (Decidable (b.length = 8 ∧ ∀ row ∈ b, row.length = 8))

/-- An en-passant target, when present, is an in-board square. -/
def WFEp (st : GameState) : Prop :=
  ∀ t : Int × Int, st.enPassant = some t → inBoard t.1 t.2

/-- Wellformedness of a `GameState`: the data-model invariants that hold for
every state the class constructs. -/
def WFState (st : GameState) : Prop := WFBoard st.board ∧ WFEp st

instance (st : GameState) : Decidable (WFEp st) :=
  match h : st.enPassant with
  | none =>
    isTrue fun _ ht => absurd (h ▸ ht) fun hx => Option.noConfusion hx
  | some t0 =>
    if hb : inBoard t0.1 t0.2 then
      isTrue fun t ht => by
        rw [h] at ht
        cases Option.some.inj ht
        exact hb
    else isFalse fun hall => hb (hall t0 h)

instance (st : GameState) : Decidable (WFState st) :=
  inferInstanceAs (Decidable (WFBoard st.board ∧ WFEp st))

/-- Abbreviations for board-cell literals. -/
def wP : Option Piece := some ⟨.pawn, .white⟩

def wN : Option Piece := some ⟨.knight, .white⟩

def wB : Option Piece := some ⟨.bishop, .white⟩

def wR : Option Piece := some ⟨.rook, .white⟩

def wQ : Option Piece := some ⟨.queen, .white⟩

def wK : Option Piece := some ⟨.king, .white⟩

def bP : Option Piece := some ⟨.pawn, .black⟩

def bN : Option Piece := some ⟨.knight, .black⟩

def bB : Option Piece := some ⟨.bishop, .black⟩

def bR : Option Piece := some ⟨.rook, .black⟩

def bQ : Option Piece := some ⟨.queen, .black⟩

def bK : Option Piece := some ⟨.king, .black⟩

def oo : Option Piece := none

/-- The twenty legal moves of the starting position, in generation order
(sixteen pawn moves, then the four knight moves). -/
def initLegal : List Move :=
  [mkMove 6 0 5 0, mkMove 6 0 4 0, mkMove 6 1 5 1, mkMove 6 1 4 1,
   mkMove 6 2 5 2, mkMove 6 2 4 2, mkMove 6 3 5 3, mkMove 6 3 4 3,
   mkMove 6 4 5 4, mkMove 6 4 4 4, mkMove 6 5 5 5, mkMove 6 5 4 5,
   mkMove 6 6 5 6, mkMove 6 6 4 6, mkMove 6 7 5 7, mkMove 6 7 4 7,
   mkMove 7 1 5 0, mkMove 7 1 5 2, mkMove 7 6 5 5, mkMove 7 6 5 7]

/-- 1.Nf3 Na6 2.g3 Nb8 3.Bg2 Na6: after this the white King has full rights,
f1/g1 empty, and neither e1 nor f1 attacked - the kingside-castling premise. -/
def c2Moves : List Move :=
  [mkMove 7 6 5 5, mkMove 0 1 2 0, mkMove 6 6 5 6,
   mkMove 2 0 0 1, mkMove 7 5 6 6, mkMove 0 1 2 0]

/-- The state reached by `c2Moves` (checked against `applyGame` below). -/
def c2State : GameState :=
  { board :=
      [[bR, oo, bB, bQ, bK, bB, bN, bR],
       [bP, bP, bP, bP, bP, bP, bP, bP],
       [bN, oo, oo, oo, oo, oo, oo, oo],
       [oo, oo, oo, oo, oo, oo, oo, oo],
       [oo, oo, oo, oo, oo, oo, oo, oo],
       [oo, oo, oo, oo, oo, wN, wP, oo],
       [wP, wP, wP, wP, wP, wP, wB, wP],
       [wR, wN, wB, wQ, wK, oo, oo, wR]]
    currentPlayer := .white
    castleW := ⟨true, true⟩
    castleB := ⟨true, true⟩
    enPassant := none
    moveNumber := 4
    halfmove := 3
    history :=
      [[[bR, bN, bB, bQ, bK, bB, bN, bR],
        [bP, bP, bP, bP, bP, bP, bP, bP],
        [oo, oo, oo, oo, oo, oo, oo, oo],
        [oo, oo, oo, oo, oo, oo, oo, oo],
        [oo, oo, oo, oo, oo, oo, oo, oo],
        [oo, oo, oo, oo, oo, wN, oo, oo],
        [wP, wP, wP, wP, wP, wP, wP, wP],
        [wR, wN, wB, wQ, wK, wB, oo, wR]],
       [[bR, oo, bB, bQ, bK, bB, bN, bR],
        [bP, bP, bP, bP, bP, bP, bP, bP],
        [bN, oo, oo, oo, oo, oo, oo, oo],
        [oo, oo, oo, oo, oo, oo, oo, oo],
        [oo, oo, oo, oo, oo, oo, oo, oo],
        [oo, oo, oo, oo, oo, wN, oo, oo],
        [wP, wP, wP, wP, wP, wP, wP, wP],
        [wR, wN, wB, wQ, wK, wB, oo, wR]],
       [[bR, oo, bB, bQ, bK, bB, bN, bR],
        [bP, bP, bP, bP, bP, bP, bP, bP],
        [bN, oo, oo, oo, oo, oo, oo, oo],
        [oo, oo, oo, oo, oo, oo, oo, oo],
        [oo, oo, oo, oo, oo, oo, oo, oo],
        [oo, oo, oo, oo, oo, wN, wP, oo],
        [wP, wP, wP, wP, wP, wP, oo, wP],
        [wR, wN, wB, wQ, wK, wB, oo, wR]],
       [[bR, bN, bB, bQ, bK, bB, bN, bR],
        [bP, bP, bP, bP, bP, bP, bP, bP],
        [oo, oo, oo, oo, oo, oo, oo, oo],
        [oo, oo, oo, oo, oo, oo, oo, oo],
        [oo, oo, oo, oo, oo, oo, oo, oo],
        [oo, oo, oo, oo, oo, wN, wP, oo],
        [wP, wP, wP, wP, wP, wP, oo, wP],
        [wR, wN, wB, wQ, wK, wB, oo, wR]],
       [[bR, bN, bB, bQ, bK, bB, bN, bR],
        [bP, bP, bP, bP, bP, bP, bP, bP],
        [oo, oo, oo, oo, oo, oo, oo, oo],
        [oo, oo, oo, oo, oo, oo, oo, oo],
        [oo, oo, oo, oo, oo, oo, oo, oo],
        [oo, oo, oo, oo, oo, wN, wP, oo],
        [wP, wP, wP, wP, wP, wP, wB, wP],
        [wR, wN, wB, wQ, wK, oo, oo, wR]],
       [[bR, oo, bB, bQ, bK, bB, bN, bR],
        [bP, bP, bP, bP, bP, bP, bP, bP],
        [bN, oo, oo, oo, oo, oo, oo, oo],
        [oo, oo, oo, oo, oo, oo, oo, oo],
        [oo, oo, oo, oo, oo, oo, oo, oo],
        [oo, oo, oo, oo, oo, wN, wP, oo],
        [wP, wP, wP, wP, wP, wP, wB, wP],
        [wR, wN, wB, wQ, wK, oo, oo, wR]]]
    check := false }

/-- A White pawn on a7 about to promote on the empty square a8; halfmove
clock at 3; Kings on e1 (White) and f6 (Black); no castling rights. -/
def c3State : GameState :=
  { board :=
      [emptyRank,
       [some ⟨.pawn, .white⟩, none, none, none, none, none, none, none],
       [none, none, none, none, none, some ⟨.king, .black⟩, none, none],
       emptyRank, emptyRank, emptyRank, emptyRank,
       [none, none, none, none, some ⟨.king, .white⟩, none, none, none]]
    currentPlayer := .white
    castleW := ⟨false, false⟩
    castleB := ⟨false, false⟩
    enPassant := none
    moveNumber := 10
    halfmove := 3
    history := []
    check := false }

/-- The non-capturing promotion a7-a8. -/
def c3Move : Move := mkMove 1 0 0 0

def c3Legal : List Move := (getLegalMoves c3State).getD []

/-- 1.Nc3 Na6 2.Nf3 Nb8 3.Ne5 Na6 4.Nd3 Nb8 5.Nc5 Na6: the white Knights end
on c3 and c5, both able to reach the empty e4, an encoding collision. -/
def c4Moves : List Move :=
  [mkMove 7 1 5 2, mkMove 0 1 2 0, mkMove 7 6 5 5, mkMove 2 0 0 1,
   mkMove 5 5 3 4, mkMove 0 1 2 0, mkMove 3 4 5 3, mkMove 2 0 0 1,
   mkMove 5 3 3 2, mkMove 0 1 2 0]

/-- The state reached by `c4Moves` (checked against `applyGame` below). -/
def c4State : GameState :=
  { board :=
      [[bR, oo, bB, bQ, bK, bB, bN, bR],
       [bP, bP, bP, bP, bP, bP, bP, bP],
       [bN, oo, oo, oo, oo, oo, oo, oo],
       [oo, oo, wN, oo, oo, oo, oo, oo],
       [oo, oo, oo, oo, oo, oo, oo, oo],
       [oo, oo, wN, oo, oo, oo, oo, oo],
       [wP, wP, wP, wP, wP, wP, wP, wP],
       [wR, oo, wB, wQ, wK, wB, oo, wR]]
    currentPlayer := .white
    castleW := ⟨true, true⟩
    castleB := ⟨true, true⟩
    enPassant := none
    moveNumber := 6
    halfmove := 10
    history :=
      [[[bR, bN, bB, bQ, bK, bB, bN, bR],
        [bP, bP, bP, bP, bP, bP, bP, bP],
        [oo, oo, oo, oo, oo, oo, oo, oo],
        [oo, oo, oo, oo, oo, oo, oo, oo],
        [oo, oo, oo, oo, oo, oo, oo, oo],
        [oo, oo, wN, oo, oo, oo, oo, oo],
        [wP, wP, wP, wP, wP, wP, wP, wP],
        [wR, oo, wB, wQ, wK, wB, wN, wR]],
       [[bR, oo, bB, bQ, bK, bB, bN, bR],
        [bP, bP, bP, bP, bP, bP, bP, bP],
        [bN, oo, oo, oo, oo, oo, oo, oo],
        [oo, oo, oo, oo, oo, oo, oo, oo],
        [oo, oo, oo, oo, oo, oo, oo, oo],
        [oo, oo, wN, oo, oo, oo, oo, oo],
        [wP, wP, wP, wP, wP, wP, wP, wP],
        [wR, oo, wB, wQ, wK, wB, wN, wR]],
       [[bR, oo, bB, bQ, bK, bB, bN, bR],
        [bP, bP, bP, bP, bP, bP, bP, bP],
        [bN, oo, oo, oo, oo, oo, oo, oo],
        [oo, oo, oo, oo, oo, oo, oo, oo],
        [oo, oo, oo, oo, oo, oo, oo, oo],
        [oo, oo, wN, oo, oo, wN, oo, oo],
        [wP, wP, wP, wP, wP, wP, wP, wP],
        [wR, oo, wB, wQ, wK, wB, oo, wR]],
       [[bR, bN, bB, bQ, bK, bB, bN, bR],
        [bP, bP, bP, bP, bP, bP, bP, bP],
        [oo, oo, oo, oo, oo, oo, oo, oo],
        [oo, oo, oo, oo, oo, oo, oo, oo],
        [oo, oo, oo, oo, oo, oo, oo, oo],
        [oo, oo, wN, oo, oo, wN, oo, oo],
        [wP, wP, wP, wP, wP, wP, wP, wP],
        [wR, oo, wB, wQ, wK, wB, oo, wR]],
       [[bR, bN, bB, bQ, bK, bB, bN, bR],
        [bP, bP, bP, bP, bP, bP, bP, bP],
        [oo, oo, oo, oo, oo, oo, oo, oo],
        [oo, oo, oo, oo, wN, oo, oo, oo],
        [oo, oo, oo, oo, oo, oo, oo, oo],
        [oo, oo, wN, oo, oo, oo, oo, oo],
        [wP, wP, wP, wP, wP, wP, wP, wP],
        [wR, oo, wB, wQ, wK, wB, oo, wR]],
       [[bR, oo, bB, bQ, bK, bB, bN, bR],
        [bP, bP, bP, bP, bP, bP, bP, bP],
        [bN, oo, oo, oo, oo, oo, oo, oo],
        [oo, oo, oo, oo, wN, oo, oo, oo],
        [oo, oo, oo, oo, oo, oo, oo, oo],
        [oo, oo, wN, oo, oo, oo, oo, oo],
        [wP, wP, wP, wP, wP, wP, wP, wP],
        [wR, oo, wB, wQ, wK, wB, oo, wR]],
       [[bR, oo, bB, bQ, bK, bB, bN, bR],
        [bP, bP, bP, bP, bP, bP, bP, bP],
        [bN, oo, oo, oo, oo, oo, oo, oo],
        [oo, oo, oo, oo, oo, oo, oo, oo],
        [oo, oo, oo, oo, oo, oo, oo, oo],
        [oo, oo, wN, wN, oo, oo, oo, oo],
        [wP, wP, wP, wP, wP, wP, wP, wP],
        [wR, oo, wB, wQ, wK, wB, oo, wR]],
       [[bR, bN, bB, bQ, bK, bB, bN, bR],
        [bP, bP, bP, bP, bP, bP, bP, bP],
        [oo, oo, oo, oo, oo, oo, oo, oo],
        [oo, oo, oo, oo, oo, oo, oo, oo],
        [oo, oo, oo, oo, oo, oo, oo, oo],
        [oo, oo, wN, wN, oo, oo, oo, oo],
        [wP, wP, wP, wP, wP, wP, wP, wP],
        [wR, oo, wB, wQ, wK, wB, oo, wR]],
       [[bR, bN, bB, bQ, bK, bB, bN, bR],
        [bP, bP, bP, bP, bP, bP, bP, bP],
        [oo, oo, oo, oo, oo, oo, oo, oo],
        [oo, oo, wN, oo, oo, oo, oo, oo],
        [oo, oo, oo, oo, oo, oo, oo, oo],
        [oo, oo, wN, oo, oo, oo, oo, oo],
        [wP, wP, wP, wP, wP, wP, wP, wP],
        [wR, oo, wB, wQ, wK, wB, oo, wR]],
       [[bR, oo, bB, bQ, bK, bB, bN, bR],
        [bP, bP, bP, bP, bP, bP, bP, bP],
        [bN, oo, oo, oo, oo, oo, oo, oo],
        [oo, oo, wN, oo, oo, oo, oo, oo],
        [oo, oo, oo, oo, oo, oo, oo, oo],
        [oo, oo, wN, oo, oo, oo, oo, oo],
        [wP, wP, wP, wP, wP, wP, wP, wP],
        [wR, oo, wB, wQ, wK, wB, oo, wR]]]
    check := false }

/-- The legal moves of `c4State` (checked against `getLegalMoves` below). -/
def c4Legal : List Move :=
  [mkMove 3 2 1 1, mkMove 3 2 1 3, mkMove 3 2 2 0, mkMove 3 2 2 4,
   mkMove 3 2 4 0, mkMove 3 2 4 4, mkMove 3 2 5 1, mkMove 3 2 5 3,
   mkMove 5 2 3 1, mkMove 5 2 3 3, mkMove 5 2 4 0, mkMove 5 2 4 4,
   mkMove 5 2 7 1, mkMove 6 0 5 0, mkMove 6 0 4 0, mkMove 6 1 5 1,
   mkMove 6 1 4 1, mkMove 6 3 5 3, mkMove 6 3 4 3, mkMove 6 4 5 4,
   mkMove 6 4 4 4, mkMove 6 5 5 5, mkMove 6 5 4 5, mkMove 6 6 5 6,
   mkMove 6 6 4 6, mkMove 6 7 5 7, mkMove 6 7 4 7, mkMove 7 0 7 1,
   mkMove 7 7 7 6]

def c4s1 : GameState :=
  { board :=
      [[bR, bN, bB, bQ, bK, bB, bN, bR],
        [bP, bP, bP, bP, bP, bP, bP, bP],
        [oo, oo, oo, oo, oo, oo, oo, oo],
        [oo, oo, oo, oo, oo, oo, oo, oo],
        [oo, oo, oo, oo, oo, oo, oo, oo],
        [oo, oo, wN, oo, oo, oo, oo, oo],
        [wP, wP, wP, wP, wP, wP, wP, wP],
        [wR, oo, wB, wQ, wK, wB, wN, wR]]
    currentPlayer := .black
    castleW := ⟨true, true⟩
    castleB := ⟨true, true⟩
    enPassant := none
    moveNumber := 1
    halfmove := 1
    history :=
      [[[bR, bN, bB, bQ, bK, bB, bN, bR],
         [bP, bP, bP, bP, bP, bP, bP, bP],
         [oo, oo, oo, oo, oo, oo, oo, oo],
         [oo, oo, oo, oo, oo, oo, oo, oo],
         [oo, oo, oo, oo, oo, oo, oo, oo],
         [oo, oo, wN, oo, oo, oo, oo, oo],
         [wP, wP, wP, wP, wP, wP, wP, wP],
         [wR, oo, wB, wQ, wK, wB, wN, wR]]]
    check := false }

def c4s2 : GameState :=
  { board :=
      [[bR, oo, bB, bQ, bK, bB, bN, bR],
        [bP, bP, bP, bP, bP, bP, bP, bP],
        [bN, oo, oo, oo, oo, oo, oo, oo],
        [oo, oo, oo, oo, oo, oo, oo, oo],
        [oo, oo, oo, oo, oo, oo, oo, oo],
        [oo, oo, wN, oo, oo, oo, oo, oo],
        [wP, wP, wP, wP, wP, wP, wP, wP],
        [wR, oo, wB, wQ, wK, wB, wN, wR]]
    currentPlayer := .white
    castleW := ⟨true, true⟩
    castleB := ⟨true, true⟩
    enPassant := none
    moveNumber := 2
    halfmove := 2
    history :=
      [[[bR, bN, bB, bQ, bK, bB, bN, bR],
         [bP, bP, bP, bP, bP, bP, bP, bP],
         [oo, oo, oo, oo, oo, oo, oo, oo],
         [oo, oo, oo, oo, oo, oo, oo, oo],
         [oo, oo, oo, oo, oo, oo, oo, oo],
         [oo, oo, wN, oo, oo, oo, oo, oo],
         [wP, wP, wP, wP, wP, wP, wP, wP],
         [wR, oo, wB, wQ, wK, wB, wN, wR]],
       [[bR, oo, bB, bQ, bK, bB, bN, bR],
         [bP, bP, bP, bP, bP, bP, bP, bP],
         [bN, oo, oo, oo, oo, oo, oo, oo],
         [oo, oo, oo, oo, oo, oo, oo, oo],
         [oo, oo, oo, oo, oo, oo, oo, oo],
         [oo, oo, wN, oo, oo, oo, oo, oo],
         [wP, wP, wP, wP, wP, wP, wP, wP],
         [wR, oo, wB, wQ, wK, wB, wN, wR]]]
    check := false }

def c4s3 : GameState :=
  { board :=
      [[bR, oo, bB, bQ, bK, bB, bN, bR],
        [bP, bP, bP, bP, bP, bP, bP, bP],
        [bN, oo, oo, oo, oo, oo, oo, oo],
        [oo, oo, oo, oo, oo, oo, oo, oo],
        [oo, oo, oo, oo, oo, oo, oo, oo],
        [oo, oo, wN, oo, oo, wN, oo, oo],
        [wP, wP, wP, wP, wP, wP, wP, wP],
        [wR, oo, wB, wQ, wK, wB, oo, wR]]
    currentPlayer := .black
    castleW := ⟨true, true⟩
    castleB := ⟨true, true⟩
    enPassant := none
    moveNumber := 2
    halfmove := 3
    history :=
      [[[bR, bN, bB, bQ, bK, bB, bN, bR],
         [bP, bP, bP, bP, bP, bP, bP, bP],
         [oo, oo, oo, oo, oo, oo, oo, oo],
         [oo, oo, oo, oo, oo, oo, oo, oo],
         [oo, oo, oo, oo, oo, oo, oo, oo],
         [oo, oo, wN, oo, oo, oo, oo, oo],
         [wP, wP, wP, wP, wP, wP, wP, wP],
         [wR, oo, wB, wQ, wK, wB, wN, wR]],
       [[bR, oo, bB, bQ, bK, bB, bN, bR],
         [bP, bP, bP, bP, bP, bP, bP, bP],
         [bN, oo, oo, oo, oo, oo, oo, oo],
         [oo, oo, oo, oo, oo, oo, oo, oo],
         [oo, oo, oo, oo, oo, oo, oo, oo],
         [oo, oo, wN, oo, oo, oo, oo, oo],
         [wP, wP, wP, wP, wP, wP, wP, wP],
         [wR, oo, wB, wQ, wK, wB, wN, wR]],
       [[bR, oo, bB, bQ, bK, bB, bN, bR],
         [bP, bP, bP, bP, bP, bP, bP, bP],
         [bN, oo, oo, oo, oo, oo, oo, oo],
         [oo, oo, oo, oo, oo, oo, oo, oo],
         [oo, oo, oo, oo, oo, oo, oo, oo],
         [oo, oo, wN, oo, oo, wN, oo, oo],
         [wP, wP, wP, wP, wP, wP, wP, wP],
         [wR, oo, wB, wQ, wK, wB, oo, wR]]]
    check := false }

def c4s4 : GameState :=
  { board :=
      [[bR, bN, bB, bQ, bK, bB, bN, bR],
        [bP, bP, bP, bP, bP, bP, bP, bP],
        [oo, oo, oo, oo, oo, oo, oo, oo],
        [oo, oo, oo, oo, oo, oo, oo, oo],
        [oo, oo, oo, oo, oo, oo, oo, oo],
        [oo, oo, wN, oo, oo, wN, oo, oo],
        [wP, wP, wP, wP, wP, wP, wP, wP],
        [wR, oo, wB, wQ, wK, wB, oo, wR]]
    currentPlayer := .white
    castleW := ⟨true, true⟩
    castleB := ⟨true, true⟩
    enPassant := none
    moveNumber := 3
    halfmove := 4
    history :=
      [[[bR, bN, bB, bQ, bK, bB, bN, bR],
         [bP, bP, bP, bP, bP, bP, bP, bP],
         [oo, oo, oo, oo, oo, oo, oo, oo],
         [oo, oo, oo, oo, oo, oo, oo, oo],
         [oo, oo, oo, oo, oo, oo, oo, oo],
         [oo, oo, wN, oo, oo, oo, oo, oo],
         [wP, wP, wP, wP, wP, wP, wP, wP],
         [wR, oo, wB, wQ, wK, wB, wN, wR]],
       [[bR, oo, bB, bQ, bK, bB, bN, bR],
         [bP, bP, bP, bP, bP, bP, bP, bP],
         [bN, oo, oo, oo, oo, oo, oo, oo],
         [oo, oo, oo, oo, oo, oo, oo, oo],
         [oo, oo, oo, oo, oo, oo, oo, oo],
         [oo, oo, wN, oo, oo, oo, oo, oo],
         [wP, wP, wP, wP, wP, wP, wP, wP],
         [wR, oo, wB, wQ, wK, wB, wN, wR]],
       [[bR, oo, bB, bQ, bK, bB, bN, bR],
         [bP, bP, bP, bP, bP, bP, bP, bP],
         [bN, oo, oo, oo, oo, oo, oo, oo],
         [oo, oo, oo, oo, oo, oo, oo, oo],
         [oo, oo, oo, oo, oo, oo, oo, oo],
         [oo, oo, wN, oo, oo, wN, oo, oo],
         [wP, wP, wP, wP, wP, wP, wP, wP],
         [wR, oo, wB, wQ, wK, wB, oo, wR]],
       [[bR, bN, bB, bQ, bK, bB, bN, bR],
         [bP, bP, bP, bP, bP, bP, bP, bP],
         [oo, oo, oo, oo, oo, oo, oo, oo],
         [oo, oo, oo, oo, oo, oo, oo, oo],
         [oo, oo, oo, oo, oo, oo, oo, oo],
         [oo, oo, wN, oo, oo, wN, oo, oo],
         [wP, wP, wP, wP, wP, wP, wP, wP],
         [wR, oo, wB, wQ, wK, wB, oo, wR]]]
    check := false }

def c4s5 : GameState :=
  { board :=
      [[bR, bN, bB, bQ, bK, bB, bN, bR],
        [bP, bP, bP, bP, bP, bP, bP, bP],
        [oo, oo, oo, oo, oo, oo, oo, oo],
        [oo, oo, oo, oo, wN, oo, oo, oo],
        [oo, oo, oo, oo, oo, oo, oo, oo],
        [oo, oo, wN, oo, oo, oo, oo, oo],
        [wP, wP, wP, wP, wP, wP, wP, wP],
        [wR, oo, wB, wQ, wK, wB, oo, wR]]
    currentPlayer := .black
    castleW := ⟨true, true⟩
    castleB := ⟨true, true⟩
    enPassant := none
    moveNumber := 3
    halfmove := 5
    history :=
      [[[bR, bN, bB, bQ, bK, bB, bN, bR],
         [bP, bP, bP, bP, bP, bP, bP, bP],
         [oo, oo, oo, oo, oo, oo, oo, oo],
         [oo, oo, oo, oo, oo, oo, oo, oo],
         [oo, oo, oo, oo, oo, oo, oo, oo],
         [oo, oo, wN, oo, oo, oo, oo, oo],
         [wP, wP, wP, wP, wP, wP, wP, wP],
         [wR, oo, wB, wQ, wK, wB, wN, wR]],
       [[bR, oo, bB, bQ, bK, bB, bN, bR],
         [bP, bP, bP, bP, bP, bP, bP, bP],
         [bN, oo, oo, oo, oo, oo, oo, oo],
         [oo, oo, oo, oo, oo, oo, oo, oo],
         [oo, oo, oo, oo, oo, oo, oo, oo],
         [oo, oo, wN, oo, oo, oo, oo, oo],
         [wP, wP, wP, wP, wP, wP, wP, wP],
         [wR, oo, wB, wQ, wK, wB, wN, wR]],
       [[bR, oo, bB, bQ, bK, bB, bN, bR],
         [bP, bP, bP, bP, bP, bP, bP, bP],
         [bN, oo, oo, oo, oo, oo, oo, oo],
         [oo, oo, oo, oo, oo, oo, oo, oo],
         [oo, oo, oo, oo, oo, oo, oo, oo],
         [oo, oo, wN, oo, oo, wN, oo, oo],
         [wP, wP, wP, wP, wP, wP, wP, wP],
         [wR, oo, wB, wQ, wK, wB, oo, wR]],
       [[bR, bN, bB, bQ, bK, bB, bN, bR],
         [bP, bP, bP, bP, bP, bP, bP, bP],
         [oo, oo, oo, oo, oo, oo, oo, oo],
         [oo, oo, oo, oo, oo, oo, oo, oo],
         [oo, oo, oo, oo, oo, oo, oo, oo],
         [oo, oo, wN, oo, oo, wN, oo, oo],
         [wP, wP, wP, wP, wP, wP, wP, wP],
         [wR, oo, wB, wQ, wK, wB, oo, wR]],
       [[bR, bN, bB, bQ, bK, bB, bN, bR],
         [bP, bP, bP, bP, bP, bP, bP, bP],
         [oo, oo, oo, oo, oo, oo, oo, oo],
         [oo, oo, oo, oo, wN, oo, oo, oo],
         [oo, oo, oo, oo, oo, oo, oo, oo],
         [oo, oo, wN, oo, oo, oo, oo, oo],
         [wP, wP, wP, wP, wP, wP, wP, wP],
         [wR, oo, wB, wQ, wK, wB, oo, wR]]]
    check := false }

def c4s6 : GameState :=
  { board :=
      [[bR, oo, bB, bQ, bK, bB, bN, bR],
        [bP, bP, bP, bP, bP, bP, bP, bP],
        [bN, oo, oo, oo, oo, oo, oo, oo],
        [oo, oo, oo, oo, wN, oo, oo, oo],
        [oo, oo, oo, oo, oo, oo, oo, oo],
        [oo, oo, wN, oo, oo, oo, oo, oo],
        [wP, wP, wP, wP, wP, wP, wP, wP],
        [wR, oo, wB, wQ, wK, wB, oo, wR]]
    currentPlayer := .white
    castleW := ⟨true, true⟩
    castleB := ⟨true, true⟩
    enPassant := none
    moveNumber := 4
    halfmove := 6
    history :=
      [[[bR, bN, bB, bQ, bK, bB, bN, bR],
         [bP, bP, bP, bP, bP, bP, bP, bP],
         [oo, oo, oo, oo, oo, oo, oo, oo],
         [oo, oo, oo, oo, oo, oo, oo, oo],
         [oo, oo, oo, oo, oo, oo, oo, oo],
         [oo, oo, wN, oo, oo, oo, oo, oo],
         [wP, wP, wP, wP, wP, wP, wP, wP],
         [wR, oo, wB, wQ, wK, wB, wN, wR]],
       [[bR, oo, bB, bQ, bK, bB, bN, bR],
         [bP, bP, bP, bP, bP, bP, bP, bP],
         [bN, oo, oo, oo, oo, oo, oo, oo],
         [oo, oo, oo, oo, oo, oo, oo, oo],
         [oo, oo, oo, oo, oo, oo, oo, oo],
         [oo, oo, wN, oo, oo, oo, oo, oo],
         [wP, wP, wP, wP, wP, wP, wP, wP],
         [wR, oo, wB, wQ, wK, wB, wN, wR]],
       [[bR, oo, bB, bQ, bK, bB, bN, bR],
         [bP, bP, bP, bP, bP, bP, bP, bP],
         [bN, oo, oo, oo, oo, oo, oo, oo],
         [oo, oo, oo, oo, oo, oo, oo, oo],
         [oo, oo, oo, oo, oo, oo, oo, oo],
         [oo, oo, wN, oo, oo, wN, oo, oo],
         [wP, wP, wP, wP, wP, wP, wP, wP],
         [wR, oo, wB, wQ, wK, wB, oo, wR]],
       [[bR, bN, bB, bQ, bK, bB, bN, bR],
         [bP, bP, bP, bP, bP, bP, bP, bP],
         [oo, oo, oo, oo, oo, oo, oo, oo],
         [oo, oo, oo, oo, oo, oo, oo, oo],
         [oo, oo, oo, oo, oo, oo, oo, oo],
         [oo, oo, wN, oo, oo, wN, oo, oo],
         [wP, wP, wP, wP, wP, wP, wP, wP],
         [wR, oo, wB, wQ, wK, wB, oo, wR]],
       [[bR, bN, bB, bQ, bK, bB, bN, bR],
         [bP, bP, bP, bP, bP, bP, bP, bP],
         [oo, oo, oo, oo, oo, oo, oo, oo],
         [oo, oo, oo, oo, wN, oo, oo, oo],
         [oo, oo, oo, oo, oo, oo, oo, oo],
         [oo, oo, wN, oo, oo, oo, oo, oo],
         [wP, wP, wP, wP, wP, wP, wP, wP],
         [wR, oo, wB, wQ, wK, wB, oo, wR]],
       [[bR, oo, bB, bQ, bK, bB, bN, bR],
         [bP, bP, bP, bP, bP, bP, bP, bP],
         [bN, oo, oo, oo, oo, oo, oo, oo],
         [oo, oo, oo, oo, wN, oo, oo, oo],
         [oo, oo, oo, oo, oo, oo, oo, oo],
         [oo, oo, wN, oo, oo, oo, oo, oo],
         [wP, wP, wP, wP, wP, wP, wP, wP],
         [wR, oo, wB, wQ, wK, wB, oo, wR]]]
    check := false }

def c4s7 : GameState :=
  { board :=
      [[bR, oo, bB, bQ, bK, bB, bN, bR],
        [bP, bP, bP, bP, bP, bP, bP, bP],
        [bN, oo, oo, oo, oo, oo, oo, oo],
        [oo, oo, oo, oo, oo, oo, oo, oo],
        [oo, oo, oo, oo, oo, oo, oo, oo],
        [oo, oo, wN, wN, oo, oo, oo, oo],
        [wP, wP, wP, wP, wP, wP, wP, wP],
        [wR, oo, wB, wQ, wK, wB, oo, wR]]
    currentPlayer := .black
    castleW := ⟨true, true⟩
    castleB := ⟨true, true⟩
    enPassant := none
    moveNumber := 4
    halfmove := 7
    history :=
      [[[bR, bN, bB, bQ, bK, bB, bN, bR],
         [bP, bP, bP, bP, bP, bP, bP, bP],
         [oo, oo, oo, oo, oo, oo, oo, oo],
         [oo, oo, oo, oo, oo, oo, oo, oo],
         [oo, oo, oo, oo, oo, oo, oo, oo],
         [oo, oo, wN, oo, oo, oo, oo, oo],
         [wP, wP, wP, wP, wP, wP, wP, wP],
         [wR, oo, wB, wQ, wK, wB, wN, wR]],
       [[bR, oo, bB, bQ, bK, bB, bN, bR],
         [bP, bP, bP, bP, bP, bP, bP, bP],
         [bN, oo, oo, oo, oo, oo, oo, oo],
         [oo, oo, oo, oo, oo, oo, oo, oo],
         [oo, oo, oo, oo, oo, oo, oo, oo],
         [oo, oo, wN, oo, oo, oo, oo, oo],
         [wP, wP, wP, wP, wP, wP, wP, wP],
         [wR, oo, wB, wQ, wK, wB, wN, wR]],
       [[bR, oo, bB, bQ, bK, bB, bN, bR],
         [bP, bP, bP, bP, bP, bP, bP, bP],
         [bN, oo, oo, oo, oo, oo, oo, oo],
         [oo, oo, oo, oo, oo, oo, oo, oo],
         [oo, oo, oo, oo, oo, oo, oo, oo],
         [oo, oo, wN, oo, oo, wN, oo, oo],
         [wP, wP, wP, wP, wP, wP, wP, wP],
         [wR, oo, wB, wQ, wK, wB, oo, wR]],
       [[bR, bN, bB, bQ, bK, bB, bN, bR],
         [bP, bP, bP, bP, bP, bP, bP, bP],
         [oo, oo, oo, oo, oo, oo, oo, oo],
         [oo, oo, oo, oo, oo, oo, oo, oo],
         [oo, oo, oo, oo, oo, oo, oo, oo],
         [oo, oo, wN, oo, oo, wN, oo, oo],
         [wP, wP, wP, wP, wP, wP, wP, wP],
         [wR, oo, wB, wQ, wK, wB, oo, wR]],
       [[bR, bN, bB, bQ, bK, bB, bN, bR],
         [bP, bP, bP, bP, bP, bP, bP, bP],
         [oo, oo, oo, oo, oo, oo, oo, oo],
         [oo, oo, oo, oo, wN, oo, oo, oo],
         [oo, oo, oo, oo, oo, oo, oo, oo],
         [oo, oo, wN, oo, oo, oo, oo, oo],
         [wP, wP, wP, wP, wP, wP, wP, wP],
         [wR, oo, wB, wQ, wK, wB, oo, wR]],
       [[bR, oo, bB, bQ, bK, bB, bN, bR],
         [bP, bP, bP, bP, bP, bP, bP, bP],
         [bN, oo, oo, oo, oo, oo, oo, oo],
         [oo, oo, oo, oo, wN, oo, oo, oo],
         [oo, oo, oo, oo, oo, oo, oo, oo],
         [oo, oo, wN, oo, oo, oo, oo, oo],
         [wP, wP, wP, wP, wP, wP, wP, wP],
         [wR, oo, wB, wQ, wK, wB, oo, wR]],
       [[bR, oo, bB, bQ, bK, bB, bN, bR],
         [bP, bP, bP, bP, bP, bP, bP, bP],
         [bN, oo, oo, oo, oo, oo, oo, oo],
         [oo, oo, oo, oo, oo, oo, oo, oo],
         [oo, oo, oo, oo, oo, oo, oo, oo],
         [oo, oo, wN, wN, oo, oo, oo, oo],
         [wP, wP, wP, wP, wP, wP, wP, wP],
         [wR, oo, wB, wQ, wK, wB, oo, wR]]]
    check := false }

def c4s8 : GameState :=
  { board :=
      [[bR, bN, bB, bQ, bK, bB, bN, bR],
        [bP, bP, bP, bP, bP, bP, bP, bP],
        [oo, oo, oo, oo, oo, oo, oo, oo],
        [oo, oo, oo, oo, oo, oo, oo, oo],
        [oo, oo, oo, oo, oo, oo, oo, oo],
        [oo, oo, wN, wN, oo, oo, oo, oo],
        [wP, wP, wP, wP, wP, wP, wP, wP],
        [wR, oo, wB, wQ, wK, wB, oo, wR]]
    currentPlayer := .white
    castleW := ⟨true, true⟩
    castleB := ⟨true, true⟩
    enPassant := none
    moveNumber := 5
    halfmove := 8
    history :=
      [[[bR, bN, bB, bQ, bK, bB, bN, bR],
         [bP, bP, bP, bP, bP, bP, bP, bP],
         [oo, oo, oo, oo, oo, oo, oo, oo],
         [oo, oo, oo, oo, oo, oo, oo, oo],
         [oo, oo, oo, oo, oo, oo, oo, oo],
         [oo, oo, wN, oo, oo, oo, oo, oo],
         [wP, wP, wP, wP, wP, wP, wP, wP],
         [wR, oo, wB, wQ, wK, wB, wN, wR]],
       [[bR, oo, bB, bQ, bK, bB, bN, bR],
         [bP, bP, bP, bP, bP, bP, bP, bP],
         [bN, oo, oo, oo, oo, oo, oo, oo],
         [oo, oo, oo, oo, oo, oo, oo, oo],
         [oo, oo, oo, oo, oo, oo, oo, oo],
         [oo, oo, wN, oo, oo, oo, oo, oo],
         [wP, wP, wP, wP, wP, wP, wP, wP],
         [wR, oo, wB, wQ, wK, wB, wN, wR]],
       [[bR, oo, bB, bQ, bK, bB, bN, bR],
         [bP, bP, bP, bP, bP, bP, bP, bP],
         [bN, oo, oo, oo, oo, oo, oo, oo],
         [oo, oo, oo, oo, oo, oo, oo, oo],
         [oo, oo, oo, oo, oo, oo, oo, oo],
         [oo, oo, wN, oo, oo, wN, oo, oo],
         [wP, wP, wP, wP, wP, wP, wP, wP],
         [wR, oo, wB, wQ, wK, wB, oo, wR]],
       [[bR, bN, bB, bQ, bK, bB, bN, bR],
         [bP, bP, bP, bP, bP, bP, bP, bP],
         [oo, oo, oo, oo, oo, oo, oo, oo],
         [oo, oo, oo, oo, oo, oo, oo, oo],
         [oo, oo, oo, oo, oo, oo, oo, oo],
         [oo, oo, wN, oo, oo, wN, oo, oo],
         [wP, wP, wP, wP, wP, wP, wP, wP],
         [wR, oo, wB, wQ, wK, wB, oo, wR]],
       [[bR, bN, bB, bQ, bK, bB, bN, bR],
         [bP, bP, bP, bP, bP, bP, bP, bP],
         [oo, oo, oo, oo, oo, oo, oo, oo],
         [oo, oo, oo, oo, wN, oo, oo, oo],
         [oo, oo, oo, oo, oo, oo, oo, oo],
         [oo, oo, wN, oo, oo, oo, oo, oo],
         [wP, wP, wP, wP, wP, wP, wP, wP],
         [wR, oo, wB, wQ, wK, wB, oo, wR]],
       [[bR, oo, bB, bQ, bK, bB, bN, bR],
         [bP, bP, bP, bP, bP, bP, bP, bP],
         [bN, oo, oo, oo, oo, oo, oo, oo],
         [oo, oo, oo, oo, wN, oo, oo, oo],
         [oo, oo, oo, oo, oo, oo, oo, oo],
         [oo, oo, wN, oo, oo, oo, oo, oo],
         [wP, wP, wP, wP, wP, wP, wP, wP],
         [wR, oo, wB, wQ, wK, wB, oo, wR]],
       [[bR, oo, bB, bQ, bK, bB, bN, bR],
         [bP, bP, bP, bP, bP, bP, bP, bP],
         [bN, oo, oo, oo, oo, oo, oo, oo],
         [oo, oo, oo, oo, oo, oo, oo, oo],
         [oo, oo, oo, oo, oo, oo, oo, oo],
         [oo, oo, wN, wN, oo, oo, oo, oo],
         [wP, wP, wP, wP, wP, wP, wP, wP],
         [wR, oo, wB, wQ, wK, wB, oo, wR]],
       [[bR, bN, bB, bQ, bK, bB, bN, bR],
         [bP, bP, bP, bP, bP, bP, bP, bP],
         [oo, oo, oo, oo, oo, oo, oo, oo],
         [oo, oo, oo, oo, oo, oo, oo, oo],
         [oo, oo, oo, oo, oo, oo, oo, oo],
         [oo, oo, wN, wN, oo, oo, oo, oo],
         [wP, wP, wP, wP, wP, wP, wP, wP],
         [wR, oo, wB, wQ, wK, wB, oo, wR]]]
    check := false }

def c4s9 : GameState :=
  { board :=
      [[bR, bN, bB, bQ, bK, bB, bN, bR],
        [bP, bP, bP, bP, bP, bP, bP, bP],
        [oo, oo, oo, oo, oo, oo, oo, oo],
        [oo, oo, wN, oo, oo, oo, oo, oo],
        [oo, oo, oo, oo, oo, oo, oo, oo],
        [oo, oo, wN, oo, oo, oo, oo, oo],
        [wP, wP, wP, wP, wP, wP, wP, wP],
        [wR, oo, wB, wQ, wK, wB, oo, wR]]
    currentPlayer := .black
    castleW := ⟨true, true⟩
    castleB := ⟨true, true⟩
    enPassant := none
    moveNumber := 5
    halfmove := 9
    history :=
      [[[bR, bN, bB, bQ, bK, bB, bN, bR],
         [bP, bP, bP, bP, bP, bP, bP, bP],
         [oo, oo, oo, oo, oo, oo, oo, oo],
         [oo, oo, oo, oo, oo, oo, oo, oo],
         [oo, oo, oo, oo, oo, oo, oo, oo],
         [oo, oo, wN, oo, oo, oo, oo, oo],
         [wP, wP, wP, wP, wP, wP, wP, wP],
         [wR, oo, wB, wQ, wK, wB, wN, wR]],
       [[bR, oo, bB, bQ, bK, bB, bN, bR],
         [bP, bP, bP, bP, bP, bP, bP, bP],
         [bN, oo, oo, oo, oo, oo, oo, oo],
         [oo, oo, oo, oo, oo, oo, oo, oo],
         [oo, oo, oo, oo, oo, oo, oo, oo],
         [oo, oo, wN, oo, oo, oo, oo, oo],
         [wP, wP, wP, wP, wP, wP, wP, wP],
         [wR, oo, wB, wQ, wK, wB, wN, wR]],
       [[bR, oo, bB, bQ, bK, bB, bN, bR],
         [bP, bP, bP, bP, bP, bP, bP, bP],
         [bN, oo, oo, oo, oo, oo, oo, oo],
         [oo, oo, oo, oo, oo, oo, oo, oo],
         [oo, oo, oo, oo, oo, oo, oo, oo],
         [oo, oo, wN, oo, oo, wN, oo, oo],
         [wP, wP, wP, wP, wP, wP, wP, wP],
         [wR, oo, wB, wQ, wK, wB, oo, wR]],
       [[bR, bN, bB, bQ, bK, bB, bN, bR],
         [bP, bP, bP, bP, bP, bP, bP, bP],
         [oo, oo, oo, oo, oo, oo, oo, oo],
         [oo, oo, oo, oo, oo, oo, oo, oo],
         [oo, oo, oo, oo, oo, oo, oo, oo],
         [oo, oo, wN, oo, oo, wN, oo, oo],
         [wP, wP, wP, wP, wP, wP, wP, wP],
         [wR, oo, wB, wQ, wK, wB, oo, wR]],
       [[bR, bN, bB, bQ, bK, bB, bN, bR],
         [bP, bP, bP, bP, bP, bP, bP, bP],
         [oo, oo, oo, oo, oo, oo, oo, oo],
         [oo, oo, oo, oo, wN, oo, oo, oo],
         [oo, oo, oo, oo, oo, oo, oo, oo],
         [oo, oo, wN, oo, oo, oo, oo, oo],
         [wP, wP, wP, wP, wP, wP, wP, wP],
         [wR, oo, wB, wQ, wK, wB, oo, wR]],
       [[bR, oo, bB, bQ, bK, bB, bN, bR],
         [bP, bP, bP, bP, bP, bP, bP, bP],
         [bN, oo, oo, oo, oo, oo, oo, oo],
         [oo, oo, oo, oo, wN, oo, oo, oo],
         [oo, oo, oo, oo, oo, oo, oo, oo],
         [oo, oo, wN, oo, oo, oo, oo, oo],
         [wP, wP, wP, wP, wP, wP, wP, wP],
         [wR, oo, wB, wQ, wK, wB, oo, wR]],
       [[bR, oo, bB, bQ, bK, bB, bN, bR],
         [bP, bP, bP, bP, bP, bP, bP, bP],
         [bN, oo, oo, oo, oo, oo, oo, oo],
         [oo, oo, oo, oo, oo, oo, oo, oo],
         [oo, oo, oo, oo, oo, oo, oo, oo],
         [oo, oo, wN, wN, oo, oo, oo, oo],
         [wP, wP, wP, wP, wP, wP, wP, wP],
         [wR, oo, wB, wQ, wK, wB, oo, wR]],
       [[bR, bN, bB, bQ, bK, bB, bN, bR],
         [bP, bP, bP, bP, bP, bP, bP, bP],
         [oo, oo, oo, oo, oo, oo, oo, oo],
         [oo, oo, oo, oo, oo, oo, oo, oo],
         [oo, oo, oo, oo, oo, oo, oo, oo],
         [oo, oo, wN, wN, oo, oo, oo, oo],
         [wP, wP, wP, wP, wP, wP, wP, wP],
         [wR, oo, wB, wQ, wK, wB, oo, wR]],
       [[bR, bN, bB, bQ, bK, bB, bN, bR],
         [bP, bP, bP, bP, bP, bP, bP, bP],
         [oo, oo, oo, oo, oo, oo, oo, oo],
         [oo, oo, wN, oo, oo, oo, oo, oo],
         [oo, oo, oo, oo, oo, oo, oo, oo],
         [oo, oo, wN, oo, oo, oo, oo, oo],
         [wP, wP, wP, wP, wP, wP, wP, wP],
         [wR, oo, wB, wQ, wK, wB, oo, wR]]]
    check := false }

/-- Nc3-e4, the later of the two knight moves rendered "Nce4". -/
def c4MoveA : Move := mkMove 5 2 4 4

/-- Nc5-e4, the earlier of the two knight moves rendered "Nce4". -/
def c4MoveB : Move := mkMove 3 2 4 4

/-- A position with a live en-passant target: white Pd5 beside black Pc5,
target c6 = (2,2) (as after ... c7-c5), Kings on e1/e8, White to move. -/
def epState : GameState :=
  { board :=
      [[oo, oo, oo, oo, bK, oo, oo, oo],
       [oo, oo, oo, oo, oo, oo, oo, oo],
       [oo, oo, oo, oo, oo, oo, oo, oo],
       [oo, oo, bP, wP, oo, oo, oo, oo],
       [oo, oo, oo, oo, oo, oo, oo, oo],
       [oo, oo, oo, oo, oo, oo, oo, oo],
       [oo, oo, oo, oo, oo, oo, oo, oo],
       [oo, oo, oo, oo, wK, oo, oo, oo]]
    currentPlayer := .white
    castleW := ⟨false, false⟩
    castleB := ⟨false, false⟩
    enPassant := some (2, 2)
    moveNumber := 5
    halfmove := 0
    history := []
    check := false }

/-- The legal moves of `epState` (checked against `getLegalMoves` below). -/
def epLegal : List Move :=
  [mkMove 3 3 2 3, ⟨3, 3, 2, 2, true, none⟩,
   mkMove 7 4 6 3, mkMove 7 4 6 4, mkMove 7 4 6 5,
   mkMove 7 4 7 3, mkMove 7 4 7 5]

/-- The en-passant capture d5xc6. -/
def epMove : Move := ⟨3, 3, 2, 2, true, none⟩

/-- A Black King on e8 with an adjacent White Rook on f8 (same rank, nothing
between) and a distant White King. -/
def c9State : GameState :=
  { board :=
      [[none, none, none, none, some ⟨.king, .black⟩, some ⟨.rook, .white⟩, none, none],
       emptyRank, emptyRank, emptyRank, emptyRank, emptyRank, emptyRank,
       [none, none, none, none, some ⟨.king, .white⟩, none, none, none]]
    currentPlayer := .black
    castleW := ⟨false, false⟩
    castleB := ⟨false, false⟩
    enPassant := none
    moveNumber := 10
    halfmove := 0
    history := []
    check := false }

/-- A small position for the witnesses: white Ke1 and Pe2, black Ka8,
White to move, no castling rights, no en-passant target. -/
def miniState : GameState :=
  { board :=
      [[bK, oo, oo, oo, oo, oo, oo, oo],
       [oo, oo, oo, oo, oo, oo, oo, oo],
       [oo, oo, oo, oo, oo, oo, oo, oo],
       [oo, oo, oo, oo, oo, oo, oo, oo],
       [oo, oo, oo, oo, oo, oo, oo, oo],
       [oo, oo, oo, oo, oo, oo, oo, oo],
       [oo, oo, oo, oo, wP, oo, oo, oo],
       [oo, oo, oo, oo, wK, oo, oo, oo]]
    currentPlayer := .white
    castleW := ⟨false, false⟩
    castleB := ⟨false, false⟩
    enPassant := none
    moveNumber := 1
    halfmove := 0
    history := []
    check := false }

/-- The legal moves of `miniState` (checked against `getLegalMoves` below). -/
def miniLegal : List Move :=
  [mkMove 6 4 5 4, mkMove 6 4 4 4,
   mkMove 7 4 6 3, mkMove 7 4 6 5, mkMove 7 4 7 3, mkMove 7 4 7 5]

/-- The double pawn advance e2-e4 in `miniState`. -/
def miniDouble : Move := mkMove 6 4 4 4

/-- The state after playing `miniDouble` in `miniState`. -/
def miniAfter : GameState := (applyMove miniState miniDouble).getD miniState

theorem reachable_of_applyGame {st st' : GameState} {moves : List Move}
    (hst : Reachable st) (h : applyGame st moves = some st') : Reachable st' := by
  induction moves generalizing st with
  | nil =>
    simp only [applyGame, Option.some.injEq] at h
    exact h ▸ hst
  | cons m rest ih =>
    simp only [applyGame, Option.bind_eq_some] at h
    obtain ⟨ms, hms, h⟩ := h
    split at h
    · simp only [Option.bind_eq_some] at h
      obtain ⟨st1, hap, hrest⟩ := h
      exact ih (Reachable.step hst hms (by assumption) hap) hrest
    · exact absurd h (by simp)

/-- One reachability step from a boolean legality test. -/
theorem reachable_step_of_legalInB (m : Move) {st st' : GameState}
    (hr : Reachable st) (hl : legalInB st m = true)
    (hap : applyMove st m = some st') : Reachable st' := by
  unfold legalInB at hl
  cases h : getLegalMoves st with
  | none => rw [h] at hl; cases hl
  | some ms =>
    rw [h] at hl
    exact Reachable.step hr h (List.mem_of_elem_eq_true hl) hap

/-! ## Structural lemmas about the legality filter and the move generators -/

/-- A move surviving the legality filter was in the input and its
`_leaves_check` test evaluated to `False`. -/
theorem mem_filterLegal {st : GameState} {l ms : List Move} {m : Move}
    (h : filterLegal st l = some ms) (hm : m ∈ ms) :
    m ∈ l ∧ leavesCheck st m = some false := by
  induction l generalizing ms with
  | nil =>
    simp only [filterLegal, Option.some.injEq] at h
    subst h
    simp at hm
  | cons a rest ih =>
    simp only [filterLegal] at h
    cases hlc : leavesCheck st a with
    | none => rw [hlc] at h; exact absurd h (by simp)
    | some b =>
      rw [hlc] at h
      cases hrec : filterLegal st rest with
      | none => rw [hrec] at h; exact absurd h (by simp)
      | some l' =>
        rw [hrec] at h
        simp only [Option.map_some', Option.some.injEq] at h
        subst h
        cases b with
        | true =>
          rw [if_pos rfl] at hm
          obtain ⟨h1, h2⟩ := ih hrec hm
          exact ⟨List.mem_cons_of_mem _ h1, h2⟩
        | false =>
          rw [if_neg Bool.false_ne_true] at hm
          rcases List.mem_cons.mp hm with rfl | hm'
          · exact ⟨List.mem_cons_self _ _, hlc⟩
          · obtain ⟨h1, h2⟩ := ih hrec hm'
            exact ⟨List.mem_cons_of_mem _ h1, h2⟩

/-- A collected pseudo-legal move comes from some scanned square holding a
piece of the side to move. -/
theorem mem_collectMoves {st : GameState} {sqs : List (Int × Int)} {ms : List Move} {m : Move}
    (h : collectMoves st sqs = some ms) (hm : m ∈ ms) :
    ∃ sq ∈ sqs, ∃ p, bget st.board sq.1 sq.2 = some p ∧ p.color = st.currentPlayer ∧
      ∃ l, pieceMoves st sq.1 sq.2 = some l ∧ m ∈ l := by
  induction sqs generalizing ms with
  | nil =>
    simp only [collectMoves, Option.some.injEq] at h
    subst h
    simp at hm
  | cons sq rest ih =>
    simp only [collectMoves] at h
    cases hsm : squareMoves st sq with
    | none => rw [hsm] at h; exact absurd h (by simp)
    | some new =>
      rw [hsm] at h
      cases hrec : collectMoves st rest with
      | none => rw [hrec] at h; exact absurd h (by simp)
      | some ms' =>
        rw [hrec] at h
        simp only [Option.some_bind, Option.map_some', Option.some.injEq] at h
        subst h
        rcases List.mem_append.mp hm with hnew | hold
        · -- the move came from this square: unpack `squareMoves`
          unfold squareMoves at hsm
          cases hcell : bget st.board sq.1 sq.2 with
          | none =>
            rw [hcell] at hsm
            dsimp only at hsm
            simp only [Option.some.injEq] at hsm
            subst hsm
            simp at hnew
          | some p =>
            rw [hcell] at hsm
            dsimp only at hsm
            by_cases hcol : p.color = st.currentPlayer
            · rw [if_pos hcol] at hsm
              exact ⟨sq, List.mem_cons_self _ _, p, hcell, hcol, new, hsm, hnew⟩
            · rw [if_neg hcol] at hsm
              simp only [Option.some.injEq] at hsm
              subst hsm
              simp at hnew
        · obtain ⟨sq', hsq', rest'⟩ := ih hrec hold
          exact ⟨sq', List.mem_cons_of_mem _ hsq', rest'⟩

/-- Every scanned square is an in-board square. -/
theorem inBoard_of_mem_squares8 : ∀ sq ∈ squares8, inBoard sq.1 sq.2 := by decide

/-- Case analysis on a generated pawn move: single push, double push from the
start row, ordinary diagonal capture, or en-passant capture. -/
theorem mem_pawnMoves {st : GameState} {r c : Int} {m : Move}
    (hm : m ∈ pawnMoves st r c) :
    m.sr = r ∧ m.sc = c ∧ m.castle = none ∧
    ((m.ep = false ∧ m.ec = c ∧ m.er = r + pawnDir st ∧
        isEmpty st (r + pawnDir st) c = true) ∨
     (m.ep = false ∧ m.ec = c ∧ m.er = r + 2 * pawnDir st ∧
        r = pawnStartRow st ∧ isEmpty st (r + 2 * pawnDir st) c = true) ∨
     (m.ep = false ∧ m.er = r + pawnDir st ∧ (m.ec = c + -1 ∨ m.ec = c + 1) ∧
        isEnemy st m.er m.ec = true) ∨
     (m.ep = true ∧ m.er = r + pawnDir st ∧ (m.ec = c + -1 ∨ m.ec = c + 1) ∧
        st.enPassant = some (m.er, m.ec))) := by
  unfold pawnMoves at hm
  rcases List.mem_append.mp hm with hf | hc
  · split_ifs at hf with h1 h2
    · rcases List.mem_cons.mp hf with rfl | hf2
      · exact ⟨rfl, rfl, rfl, Or.inl ⟨rfl, rfl, rfl, h1⟩⟩
      · rcases List.mem_singleton.mp hf2 with rfl
        exact ⟨rfl, rfl, rfl, Or.inr (Or.inl ⟨rfl, rfl, rfl, h2.1, h2.2⟩)⟩
    · rcases List.mem_cons.mp hf with rfl | hf2
      · exact ⟨rfl, rfl, rfl, Or.inl ⟨rfl, rfl, rfl, h1⟩⟩
      · simp at hf2
    · simp at hf
  · simp only [List.mem_flatMap] at hc
    obtain ⟨dc, hdc, hmem⟩ := hc
    have hdc' : dc = -1 ∨ dc = 1 := by
      rcases List.mem_cons.mp hdc with h | h
      · exact Or.inl h
      · exact Or.inr (List.mem_singleton.mp h)
    rcases List.mem_append.mp hmem with hcap | hep
    · split_ifs at hcap with h3
      · rcases List.mem_singleton.mp hcap with rfl
        refine ⟨rfl, rfl, rfl, Or.inr (Or.inr (Or.inl ⟨rfl, rfl, ?_, h3⟩))⟩
        rcases hdc' with rfl | rfl
        · exact Or.inl rfl
        · exact Or.inr rfl
      · simp at hcap
    · split_ifs at hep with h4
      · rcases List.mem_singleton.mp hep with rfl
        refine ⟨rfl, rfl, rfl, Or.inr (Or.inr (Or.inr ⟨rfl, rfl, ?_, h4⟩))⟩
        rcases hdc' with rfl | rfl
        · exact Or.inl rfl
        · exact Or.inr rfl
      · simp at hep

/-- A generated knight move starts at the knight's square, carries no flag,
and lands on an empty or enemy square. -/
theorem mem_knightMoves {st : GameState} {r c : Int} {m : Move}
    (hm : m ∈ knightMoves st r c) :
    m.sr = r ∧ m.sc = c ∧ m.ep = false ∧ m.castle = none ∧
      canMove st m.er m.ec = true := by
  simp only [knightMoves, List.mem_flatMap] at hm
  obtain ⟨d, _, hmem⟩ := hm
  split_ifs at hmem with h
  · rcases List.mem_singleton.mp hmem with rfl
    exact ⟨rfl, rfl, rfl, rfl, h⟩
  · simp at hmem

/-- A move produced along one sliding ray starts at the slider's square,
carries no flag, and lands on a valid square. -/
theorem mem_slideRay {st : GameState} {row col dr dc : Int} :
    ∀ {fuel : Nat} {r c : Int} {m : Move}, m ∈ slideRay st row col dr dc fuel r c →
      m.sr = row ∧ m.sc = col ∧ m.ep = false ∧ m.castle = none ∧
        isValid m.er m.ec = true := by
  intro fuel
  induction fuel with
  | zero => intro r c m hm; simp [slideRay] at hm
  | succ n ih =>
    intro r c m hm
    rw [slideRay] at hm
    split_ifs at hm with hv
    · cases hcell : bget st.board r c with
      | none =>
        rw [hcell] at hm
        dsimp only at hm
        rcases List.mem_cons.mp hm with rfl | hm'
        · exact ⟨rfl, rfl, rfl, rfl, hv⟩
        · exact ih hm'
      | some p =>
        rw [hcell] at hm
        dsimp only at hm
        split_ifs at hm with hcol
        · rcases List.mem_singleton.mp hm with rfl
          exact ⟨rfl, rfl, rfl, rfl, hv⟩
        · simp at hm
    · simp at hm

/-- `mem_slideRay` lifted to `_slide` over a direction list. -/
theorem mem_slide {st : GameState} {row col : Int} {dirs : List (Int × Int)} {m : Move}
    (hm : m ∈ slide st row col dirs) :
    m.sr = row ∧ m.sc = col ∧ m.ep = false ∧ m.castle = none ∧
      isValid m.er m.ec = true := by
  simp only [slide, List.mem_flatMap] at hm
  obtain ⟨d, _, hmem⟩ := hm
  exact mem_slideRay hmem

/-- A generated fixed-offset king move starts at the king's square, carries no
flag, and lands on an empty or enemy square. -/
theorem mem_kingNormalMoves {st : GameState} {r c : Int} {m : Move}
    (hm : m ∈ kingNormalMoves st r c) :
    m.sr = r ∧ m.sc = c ∧ m.ep = false ∧ m.castle = none ∧
      canMove st m.er m.ec = true := by
  simp only [kingNormalMoves, List.mem_flatMap] at hm
  obtain ⟨dr, _, dc, _, hmem⟩ := hm
  split_ifs at hmem with h
  · rcases List.mem_singleton.mp hmem with rfl
    exact ⟨rfl, rfl, rfl, rfl, h.2⟩
  · simp at hmem

/-- When `_king_moves` returns at all, it returns exactly the fixed-offset
moves: both castling branches either raise or append nothing. -/
theorem kingMoves_eq_normal {st : GameState} {r c : Int} {l : List Move}
    (h : kingMoves st r c = some l) : l = kingNormalMoves st r c := by
  unfold kingMoves at h
  have key : ∀ o1 o2 : Option (List Move),
      (∀ x, o1 = some x → x = []) → (∀ x, o2 = some x → x = []) →
      (o1.bind fun ks => o2.bind fun qs =>
        some (kingNormalMoves st r c ++ ks ++ qs)) = some l →
      l = kingNormalMoves st r c := by
    intro o1 o2 ho1 ho2 hh
    cases o1 with
    | none => simp at hh
    | some x1 =>
      cases o2 with
      | none => simp at hh
      | some x2 =>
        simp only [Option.some_bind, Option.some.injEq] at hh
        rw [ho1 x1 rfl, ho2 x2 rfl] at hh
        simpa using hh.symm
  apply key _ _ ?_ ?_ h
  · intro x hx
    split_ifs at hx <;> simp_all
  · intro x hx
    split_ifs at hx <;> simp_all

theorem isValid_of_isEmpty {st : GameState} {r c : Int} (h : isEmpty st r c = true) :
    isValid r c = true := by
  unfold isEmpty at h
  simp only [Bool.and_eq_true] at h
  exact h.1

theorem isValid_of_isEnemy {st : GameState} {r c : Int} (h : isEnemy st r c = true) :
    isValid r c = true := by
  unfold isEnemy at h
  simp only [Bool.and_eq_true] at h
  exact h.1

theorem isValid_of_canMove {st : GameState} {r c : Int} (h : canMove st r c = true) :
    isValid r c = true := by
  unfold canMove at h
  simp only [Bool.or_eq_true] at h
  rcases h with h' | h'
  · exact isValid_of_isEmpty h'
  · exact isValid_of_isEnemy h'

/-- Joint structural facts about any generated pseudo-legal move: it starts at
the generating square, has no castle flag (the castling branch always raises
before appending), its en-passant flag matches the state's target, and its
destination is a valid square except possibly for an en-passant capture. -/
theorem pieceMoves_shape {st : GameState} {r c : Int} {l : List Move} {m : Move} {p : Piece}
    (hp : bget st.board r c = some p) (h : pieceMoves st r c = some l) (hm : m ∈ l) :
    m.sr = r ∧ m.sc = c ∧ m.castle = none ∧
      (m.ep = true → p.kind = .pawn ∧ st.enPassant = some (m.er, m.ec)) ∧
      (isValid m.er m.ec = true ∨ (m.ep = true ∧ st.enPassant = some (m.er, m.ec))) := by
  unfold pieceMoves at h
  rw [hp] at h
  obtain ⟨k, pc⟩ := p
  cases k with
  | pawn =>
    dsimp only at h
    cases Option.some.inj h
    obtain ⟨h1, h2, h3, h4⟩ := mem_pawnMoves hm
    refine ⟨h1, h2, h3, ?_, ?_⟩
    · intro hept
      rcases h4 with ⟨hf, _⟩ | ⟨hf, _⟩ | ⟨hf, _⟩ | ⟨_, _, _, htgt⟩
      · rw [hept] at hf; cases hf
      · rw [hept] at hf; cases hf
      · rw [hept] at hf; cases hf
      · exact ⟨rfl, htgt⟩
    · rcases h4 with ⟨_, hec, her, hemp⟩ | ⟨_, hec, her, _, hemp⟩ |
        ⟨_, her, _, henemy⟩ | ⟨hept, _, _, htgt⟩
      · rw [hec, her]; exact Or.inl (isValid_of_isEmpty hemp)
      · rw [hec, her]; exact Or.inl (isValid_of_isEmpty hemp)
      · exact Or.inl (isValid_of_isEnemy henemy)
      · exact Or.inr ⟨hept, htgt⟩
  | knight =>
    dsimp only at h
    cases Option.some.inj h
    obtain ⟨h1, h2, h3, h4, h5⟩ := mem_knightMoves hm
    exact ⟨h1, h2, h4, fun hx => absurd (h3 ▸ hx) (by simp),
      Or.inl (isValid_of_canMove h5)⟩
  | bishop =>
    dsimp only at h
    cases Option.some.inj h
    obtain ⟨h1, h2, h3, h4, h5⟩ := mem_slide hm
    exact ⟨h1, h2, h4, fun hx => absurd (h3 ▸ hx) (by simp), Or.inl h5⟩
  | rook =>
    dsimp only at h
    cases Option.some.inj h
    obtain ⟨h1, h2, h3, h4, h5⟩ := mem_slide hm
    exact ⟨h1, h2, h4, fun hx => absurd (h3 ▸ hx) (by simp), Or.inl h5⟩
  | queen =>
    dsimp only at h
    cases Option.some.inj h
    rcases List.mem_append.mp hm with hm' | hm' <;>
      · obtain ⟨h1, h2, h3, h4, h5⟩ := mem_slide hm'
        exact ⟨h1, h2, h4, fun hx => absurd (h3 ▸ hx) (by simp), Or.inl h5⟩
  | king =>
    dsimp only at h
    have hl := kingMoves_eq_normal h
    subst hl
    obtain ⟨h1, h2, h3, h4, h5⟩ := mem_kingNormalMoves hm
    exact ⟨h1, h2, h4, fun hx => absurd (h3 ▸ hx) (by simp),
      Or.inl (isValid_of_canMove h5)⟩

/-- Structural facts about any member of a successful `get_legal_moves` call:
the moved piece exists and belongs to the side to move, the move has no castle
flag, its en-passant flag matches the state's target, its destination is
in-board (or the en-passant target), and its `_leaves_check` test is `False`. -/
theorem mem_getLegalMoves {st : GameState} {ms : List Move} {m : Move}
    (h : getLegalMoves st = some ms) (hm : m ∈ ms) :
    ∃ p, bget st.board m.sr m.sc = some p ∧ p.color = st.currentPlayer ∧
      inBoard m.sr m.sc ∧ m.castle = none ∧
      (m.ep = true → p.kind = .pawn ∧ st.enPassant = some (m.er, m.ec)) ∧
      (isValid m.er m.ec = true ∨ (m.ep = true ∧ st.enPassant = some (m.er, m.ec))) ∧
      leavesCheck st m = some false := by
  unfold getLegalMoves pseudoMoves at h
  cases hps : collectMoves st squares8 with
  | none => rw [hps] at h; exact absurd h (by simp)
  | some pml =>
    rw [hps] at h
    simp only [Option.some_bind] at h
    obtain ⟨hmem, hlc⟩ := mem_filterLegal h hm
    obtain ⟨sq, hsq, p, hcell, hcol, l, hpm, hml⟩ := mem_collectMoves hps hmem
    obtain ⟨hsr, hsc, hcastle, hep, hend⟩ := pieceMoves_shape hcell hpm hml
    refine ⟨p, ?_, hcol, ?_, hcastle, hep, hend, hlc⟩
    · rw [hsr, hsc]; exact hcell
    · rw [hsr, hsc]; exact inBoard_of_mem_squares8 sq hsq

/-! ## Lemmas about the notation codec -/

/-- `_to_san` succeeds whenever the origin square is occupied. -/
theorem toSan_isSome_of_occupied {st : GameState} {m : Move} {p : Piece}
    (hp : bget st.board m.sr m.sc = some p) : ∃ s, toSan st m = some s := by
  unfold toSan
  rw [hp]
  exact ⟨_, rfl⟩

/-- Every legal move renders: its origin square is occupied. -/
theorem toSan_isSome_of_legal {st : GameState} {ms : List Move}
    (h : getLegalMoves st = some ms) :
    ∀ x ∈ ms, ∃ sx, toSan st x = some sx := fun x hx => by
  obtain ⟨p, hp, _⟩ := mem_getLegalMoves h hx
  exact toSan_isSome_of_occupied hp

/-- When `_parse_san` resolves text to a move, that move is a member of the
list and renders exactly to the text. -/
theorem parseSan_eq_some {st : GameState} {s : String} {ms : List Move} {m' : Move}
    (h : parseSan st s ms = some (some m')) :
    m' ∈ ms ∧ toSan st m' = some s := by
  induction ms with
  | nil => simp [parseSan] at h
  | cons a rest ih =>
    simp only [parseSan] at h
    cases hts : toSan st a with
    | none => rw [hts] at h; cases h
    | some sa =>
      rw [hts] at h
      dsimp only at h
      by_cases he : sa = s
      · rw [if_pos he] at h
        have : a = m' := by simpa using h
        subst this
        subst he
        exact ⟨List.mem_cons_self _ _, hts⟩
      · rw [if_neg he] at h
        obtain ⟨hmem, hrend⟩ := ih h
        exact ⟨List.mem_cons_of_mem _ hmem, hrend⟩

/-- If every member renders and some member renders to `s`, `_parse_san`
resolves `s` (to the first member whose rendering is `s`). -/
theorem parseSan_finds {st : GameState} {s : String} {ms : List Move}
    (hall : ∀ x ∈ ms, ∃ sx, toSan st x = some sx)
    (hex : ∃ x ∈ ms, toSan st x = some s) :
    ∃ m', parseSan st s ms = some (some m') := by
  induction ms with
  | nil => simp at hex
  | cons a rest ih =>
    obtain ⟨sa, hsa⟩ := hall a (List.mem_cons_self a rest)
    simp only [parseSan, hsa]
    by_cases he : sa = s
    · rw [if_pos he]
      exact ⟨a, rfl⟩
    · rw [if_neg he]
      apply ih fun x hx => hall x (List.mem_cons_of_mem _ hx)
      rcases hex with ⟨x, hx, hxs⟩
      rcases List.mem_cons.mp hx with rfl | hx'
      · rw [hsa] at hxs
        exact absurd (Option.some.inj hxs) he
      · exact ⟨x, hx', hxs⟩

/-- The rendering pass of `play` succeeds when every member renders. -/
theorem renderAll_isSome {st : GameState} {ms : List Move}
    (hall : ∀ x ∈ ms, ∃ sx, toSan st x = some sx) :
    ∃ ss, renderAll st ms = some ss := by
  induction ms with
  | nil => exact ⟨[], rfl⟩
  | cons a rest ih =>
    obtain ⟨sa, hsa⟩ := hall a (List.mem_cons_self a rest)
    obtain ⟨ss, hss⟩ := ih fun x hx => hall x (List.mem_cons_of_mem _ hx)
    exact ⟨sa :: ss, by simp [renderAll, hsa, hss]⟩

/-! ## Board-update frame lemmas -/

theorem pyIndex_inRange {len : Nat} {i : Int} (h0 : 0 ≤ i) (hl : i < (len : Int)) :
    pyIndex len i = some i.toNat := by
  unfold pyIndex
  rw [if_pos ⟨h0, hl⟩]

theorem isValid_iff_inBoard {r c : Int} : isValid r c = true ↔ inBoard r c := by
  unfold isValid inBoard
  simp [Bool.and_eq_true, decide_eq_true_eq, and_assoc]

/-- Reading an in-board cell of an 8-row board is reading the row then cell. -/
theorem bget_rows {b : Board} (hlen : b.length = 8) {r : Int} (c : Int)
    (hr0 : 0 ≤ r) (hr8 : r < 8) :
    bget b r c =
      (match b.get? r.toNat with
        | none => none
        | some row => (listGetI row c).getD none) := by
  unfold bget
  have h1 : listGetI b r = b.get? r.toNat := by
    unfold listGetI
    rw [hlen, pyIndex_inRange hr0 (by exact_mod_cast hr8)]
    rfl
  rw [h1]

/-- Reading an in-board entry of an 8-entry row. -/
theorem listGetI_row {row : List (Option Piece)} (hlen : row.length = 8) {c : Int}
    (hc0 : 0 ≤ c) (hc8 : c < 8) :
    listGetI row c = row.get? c.toNat := by
  unfold listGetI
  rw [hlen, pyIndex_inRange hc0 (by exact_mod_cast hc8)]
  rfl

/-- A cell write at an in-board square of an 8x8 board preserves the shape
and changes no other cell. -/
theorem bget_bset_ne {b b' : Board} {r0 c0 : Int} {v : Option Piece}
    (hwf : WFBoard b) (h0 : inBoard r0 c0)
    (hset : bset b r0 c0 v = some b') :
    WFBoard b' ∧ ∀ r c : Int, inBoard r c → (r, c) ≠ (r0, c0) →
      bget b' r c = bget b r c := by
  obtain ⟨hlen, hrows⟩ := hwf
  obtain ⟨hr0, hr8, hc0, hc8⟩ := h0
  unfold bset at hset
  rw [hlen, pyIndex_inRange hr0 (by exact_mod_cast hr8)] at hset
  simp only [Option.some_bind] at hset
  have hr0lt : r0.toNat < b.length := by omega
  cases hrow : b.get? r0.toNat with
  | none => rw [hrow] at hset; exact absurd hset (by simp)
  | some row =>
    rw [hrow] at hset
    simp only [Option.some_bind] at hset
    have hrowmem : row ∈ b := List.get?_mem hrow
    have hrowlen : row.length = 8 := hrows row hrowmem
    rw [hrowlen, pyIndex_inRange hc0 (by exact_mod_cast hc8)] at hset
    simp only [Option.map_some', Option.some.injEq] at hset
    subst hset
    have hlen' : (b.set r0.toNat (row.set c0.toNat v)).length = 8 := by
      rw [List.length_set, hlen]
    constructor
    · refine ⟨hlen', ?_⟩
      intro row' hrow'
      rcases List.mem_or_eq_of_mem_set hrow' with hmem | heq
      · exact hrows row' hmem
      · rw [heq, List.length_set]
        exact hrowlen
    · intro r c hin hne
      obtain ⟨hcr0, hcr8, hcc0, hcc8⟩ := hin
      rw [bget_rows hlen' c hcr0 hcr8, bget_rows hlen c hcr0 hcr8]
      by_cases hreq : r.toNat = r0.toNat
      · have hrr : r = r0 := by omega
        have hcc : c ≠ c0 := by
          intro hcontra
          exact hne (by rw [hrr, hcontra])
        rw [hreq, List.get?_set_eq_of_lt _ hr0lt, hrow]
        have hclen' : (row.set c0.toNat v).length = 8 := by
          rw [List.length_set, hrowlen]
        dsimp only
        rw [listGetI_row hclen' hcc0 hcc8, listGetI_row hrowlen hcc0 hcc8]
        rw [List.get?_set_ne _ _ (by omega)]
      · rw [List.get?_set_ne _ _ (fun hx => hreq hx.symm)]

/-! ## Concrete evaluation facts shared by several results -/

theorem getLegalMoves_initial : getLegalMoves initialState = some initLegal := by decide

theorem getLegalMoves_mini : getLegalMoves miniState = some miniLegal := by decide

theorem getLegalMoves_ep : getLegalMoves epState = some epLegal := by decide

/-! ## The claims -/

/-- C1: for every GameState (in particular every reachable one) whose
legal-move computation succeeds, applying any move of the returned list yields
a post-move state in which the mover's-color in-check test evaluates to
`False` (this is `_leaves_check`, replayed on the committed move). -/
theorem legal_moves_leave_king_safe (st : GameState) (ms : List Move) (m : Move)
    (hms : getLegalMoves st = some ms) (hm : m ∈ ms) :
    (applyMove st m).bind (fun post => inCheck post st.currentPlayer) = some false := by
  obtain ⟨_, _, _, _, _, _, _, hlc⟩ := mem_getLegalMoves hms hm
  exact hlc

/-- Witness for C1: the pawn push e2-e3 in the small concrete position. -/
theorem legal_moves_leave_king_safe_witness :
    (applyMove miniState (mkMove 6 4 5 4)).bind
      (fun post => inCheck post miniState.currentPlayer) = some false :=
  legal_moves_leave_king_safe miniState miniLegal (mkMove 6 4 5 4)
    getLegalMoves_mini (by decide)

/-- C6: from the standard starting position the legal-move list for White has
exactly 20 entries - 16 pawn moves and 4 knight moves - with no castle flag,
no capture (every destination is empty) and no en-passant capture. -/
theorem initial_position_twenty_moves :
    getLegalMoves initialState = some initLegal ∧
    initLegal.length = 20 ∧
    (initLegal.countP fun m =>
      decide (bget initialState.board m.sr m.sc = some ⟨.pawn, .white⟩)) = 16 ∧
    (initLegal.countP fun m =>
      decide (bget initialState.board m.sr m.sc = some ⟨.knight, .white⟩)) = 4 ∧
    (initLegal.all fun m => m.castle.isNone) = true ∧
    (initLegal.all fun m => (bget initialState.board m.er m.ec).isNone && !m.ep) = true :=
  ⟨getLegalMoves_initial, by decide, by decide, by decide, by decide, by decide⟩

/-- C8: with a non-empty legal-move list, the move the play loop hands to
`_apply_move` is the parse result when the external text resolves - the first
legal move whose rendering equals the text - and otherwise `legal_moves[0]`. -/
theorem play_fallback_first_move (st : GameState) (m0 : Move) (rest : List Move)
    (action : String) (hms : getLegalMoves st = some (m0 :: rest)) :
    (parseSan st action (m0 :: rest) = some none → playChosen st action = some m0) ∧
    (∀ m, parseSan st action (m0 :: rest) = some (some m) →
      playChosen st action = some m ∧ m ∈ m0 :: rest ∧ toSan st m = some action) := by
  have hall := toSan_isSome_of_legal hms
  obtain ⟨ss, hss⟩ := renderAll_isSome hall
  have base : ∀ r, parseSan st action (m0 :: rest) = some r →
      playChosen st action = some (match r with | some m => m | none => m0) := by
    intro r hr
    unfold playChosen
    rw [hms]
    simp only [Option.some_bind]
    rw [hss]
    simp only [Option.some_bind]
    rw [hr]
    rfl
  constructor
  · intro hp
    exact base none hp
  · intro m hp
    obtain ⟨hmem, hrend⟩ := parseSan_eq_some hp
    exact ⟨base (some m) hp, hmem, hrend⟩

/-- Witness for C8: unresolvable text falls back to the head of the list. -/
theorem play_fallback_first_move_witness :
    playChosen miniState "zz" = some (mkMove 6 4 5 4) :=
  (play_fallback_first_move miniState (mkMove 6 4 5 4)
    [mkMove 6 4 4 4, mkMove 7 4 6 3, mkMove 7 4 6 5, mkMove 7 4 7 3, mkMove 7 4 7 5]
    "zz" getLegalMoves_mini).1 (by decide)

/-- C4 (amended): decoding the encoding of a legal move m against that
position's legal-move list succeeds and returns the first legal move that
renders identically to m's encoding - which is m itself whenever no other
legal move shares it. -/
theorem san_roundtrip_first_match (st : GameState) (ms : List Move) (m : Move)
    (hms : getLegalMoves st = some ms) (hm : m ∈ ms) :
    ∃ s m', toSan st m = some s ∧ parseSan st s ms = some (some m') ∧
      m' ∈ ms ∧ toSan st m' = some s ∧
      ((∀ x ∈ ms, toSan st x = some s → x = m) → m' = m) := by
  have hall := toSan_isSome_of_legal hms
  obtain ⟨s, hs⟩ := hall m hm
  obtain ⟨m', hp⟩ := parseSan_finds hall ⟨m, hm, hs⟩
  obtain ⟨hmem, hrend⟩ := parseSan_eq_some hp
  exact ⟨s, m', hs, hp, hmem, hrend, fun huniq => huniq m' hmem hrend⟩

/-- Witness for C4 (amended): e2-e3 in the small position round-trips. -/
theorem san_roundtrip_first_match_witness :
    parseSan miniState "ee3" miniLegal = some (some (mkMove 6 4 5 4)) := by
  obtain ⟨s, m', hs, hp, hmem, hrend, huniq⟩ :=
    san_roundtrip_first_match miniState miniLegal (mkMove 6 4 5 4)
      getLegalMoves_mini (by decide)
  have hs' : s = "ee3" := by
    rw [show toSan miniState (mkMove 6 4 5 4) = some "ee3" from by decide] at hs
    exact (Option.some.inj hs).symm
  subst hs'
  rw [huniq (by decide)] at hp
  exact hp

set_option maxHeartbeats 8000000 in
/-- `c4State` is reached from the initial position by the legal game
1.Nc3 Na6 2.Nf3 Nb8 3.Ne5 Na6 4.Nd3 Nb8 5.Nc5 Na6, one step at a time. -/
theorem c4State_reachable : Reachable c4State := by
  have h1 : Reachable c4s1 :=
    reachable_step_of_legalInB (mkMove 7 1 5 2) Reachable.init (by decide) (by decide)
  have h2 : Reachable c4s2 :=
    reachable_step_of_legalInB (mkMove 0 1 2 0) h1 (by decide) (by decide)
  have h3 : Reachable c4s3 :=
    reachable_step_of_legalInB (mkMove 7 6 5 5) h2 (by decide) (by decide)
  have h4 : Reachable c4s4 :=
    reachable_step_of_legalInB (mkMove 2 0 0 1) h3 (by decide) (by decide)
  have h5 : Reachable c4s5 :=
    reachable_step_of_legalInB (mkMove 5 5 3 4) h4 (by decide) (by decide)
  have h6 : Reachable c4s6 :=
    reachable_step_of_legalInB (mkMove 0 1 2 0) h5 (by decide) (by decide)
  have h7 : Reachable c4s7 :=
    reachable_step_of_legalInB (mkMove 3 4 5 3) h6 (by decide) (by decide)
  have h8 : Reachable c4s8 :=
    reachable_step_of_legalInB (mkMove 2 0 0 1) h7 (by decide) (by decide)
  have h9 : Reachable c4s9 :=
    reachable_step_of_legalInB (mkMove 5 3 3 2) h8 (by decide) (by decide)
  exact reachable_step_of_legalInB (mkMove 0 1 2 0) h9 (by decide) (by decide)

set_option maxHeartbeats 8000000 in
/-- C4 counterexample: `c4State` is reachable (1.Nc3 Na6 2.Nf3 Nb8 3.Ne5 Na6
4.Nd3 Nb8 5.Nc5 Na6), both knight moves to e4 are legal and render "Nce4",
and decoding the encoding of Nc3-e4 (`c4MoveA`) returns Nc5-e4 (`c4MoveB`),
a different move: the round trip is not the identity. -/
theorem san_roundtrip_not_identity :
    Reachable c4State ∧
    getLegalMoves c4State = some c4Legal ∧
    c4MoveA ∈ c4Legal ∧ c4MoveB ∈ c4Legal ∧ c4MoveA ≠ c4MoveB ∧
    toSan c4State c4MoveA = some "Nce4" ∧
    toSan c4State c4MoveB = some "Nce4" ∧
    parseSan c4State "Nce4" c4Legal = some (some c4MoveB) :=
  ⟨c4State_reachable, by decide, by decide,
    by decide, by decide, by decide, by decide, by decide⟩

/-- C5 (amended): every legal move renders as the piece letter (empty for a
pawn), then the origin file, then "x" exactly when the destination square is
occupied, then the destination square; castle-flagged moves get no O-O form
and an en-passant capture (empty destination) gets no capture marker. -/
theorem toSan_actual_format (st : GameState) (ms : List Move) (m : Move)
    (hms : getLegalMoves st = some ms) (hm : m ∈ ms) :
    ∃ p, bget st.board m.sr m.sc = some p ∧
      toSan st m = some ((if p.kind = .pawn then "" else pieceUpper p.kind) ++
        String.mk [fileChar m.sc] ++
        (if (bget st.board m.er m.ec).isSome then "x" else "") ++
        (String.mk [fileChar m.ec] ++ toString (8 - m.er))) := by
  obtain ⟨p, hp, _⟩ := mem_getLegalMoves hms hm
  refine ⟨p, hp, ?_⟩
  unfold toSan
  rw [hp]

/-- Witness for C5 (amended): the pawn push e2-e3 renders "ee3". -/
theorem toSan_actual_format_witness :
    toSan miniState (mkMove 6 4 5 4) = some "ee3" := by
  obtain ⟨p, hp, hfmt⟩ := toSan_actual_format miniState miniLegal (mkMove 6 4 5 4)
    getLegalMoves_mini (by decide)
  have hp' : p = ⟨.pawn, .white⟩ := by
    rw [show bget miniState.board (mkMove 6 4 5 4).sr (mkMove 6 4 5 4).sc =
      some ⟨.pawn, .white⟩ from by decide] at hp
    exact (Option.some.inj hp).symm
  subst hp'
  rw [hfmt]
  decide

/-- C5 counterexample: the encoder inserts the origin file (the legal knight
move Ng1-f3 renders "Ngf3", not "Nf3"), renders the legal en-passant capture
d5xc6 as "dc6" with no capture marker, and renders a castle-flagged move as a
plain King move ("Keg1"), not "O-O". -/
theorem toSan_not_spec_format :
    getLegalMoves initialState = some initLegal ∧
    mkMove 7 6 5 5 ∈ initLegal ∧
    toSan initialState (mkMove 7 6 5 5) = some "Ngf3" ∧
    "Ngf3" ≠ "Nf3" ∧
    getLegalMoves epState = some epLegal ∧
    epMove ∈ epLegal ∧ epMove.ep = true ∧
    bget epState.board epMove.er epMove.ec = none ∧
    toSan epState epMove = some "dc6" ∧
    "dc6".toList.contains 'x' = false ∧
    toSan c2State ⟨7, 4, 7, 6, false, some CSide.kingside⟩ = some "Keg1" ∧
    "Keg1" ≠ "O-O" :=
  ⟨getLegalMoves_initial, by decide, by decide, by decide, getLegalMoves_ep,
    by decide, by decide, by decide, by decide, by decide, by decide, by decide⟩

set_option maxHeartbeats 8000000 in
/-- C2 (code bug): after 1.Nf3 Na6 2.g3 Nb8 3.Bg2 Na6 - a reachable position
in which White keeps full castling rights, f1 and g1 are empty, White is not
in check and neither e1 nor f1 is attacked by Black - no legal-move list
containing the castling move is produced: `_king_moves` reaches the castling
test `self._attacked(row, 5)`, a method the class does not define, so
`get_legal_moves` raises AttributeError (`none`). -/
theorem castling_generation_crashes :
    applyGame initialState c2Moves = some c2State ∧
    Reachable c2State ∧
    c2State.currentPlayer = Color.white ∧
    (c2State.castling Color.white).K = true ∧
    isEmpty c2State 7 5 = true ∧ isEmpty c2State 7 6 = true ∧
    c2State.check = false ∧
    inCheck c2State Color.white = some false ∧
    anyAttacks c2State (7, 5) (allEnemyPositions c2State Color.white) = some false ∧
    kingMoves c2State 7 4 = none ∧
    getLegalMoves c2State = none := by
  have hgame : applyGame initialState c2Moves = some c2State := by decide
  exact ⟨hgame, reachable_of_applyGame Reachable.init hgame, by decide, by decide,
    by decide, by decide, by decide, by decide, by decide, by decide, by decide⟩

/-- C3 (code bug): the non-capturing promotion a7-a8 is legal in `c3State`,
whose halfmove clock is 3, yet the resulting clock is 4 = 3 + 1 instead of 0:
`_apply_move` rebinds `piece` to the promoted Queen before evaluating
`piece.lower() == 'p'` on the halfmove-clock line, so a non-capturing
promotion is not counted as a pawn move. -/
theorem promotion_skips_halfmove_reset :
    getLegalMoves c3State = some c3Legal ∧
    c3Move ∈ c3Legal ∧
    bget c3State.board 1 0 = some ⟨.pawn, .white⟩ ∧
    bget c3State.board 0 0 = none ∧
    c3State.halfmove = 3 ∧
    (applyMove c3State c3Move).map GameState.halfmove = some 4 ∧
    (applyMove c3State c3Move).map (fun st => bget st.board 0 0) =
      some (some ⟨.queen, .white⟩) :=
  ⟨by decide, by decide, by decide, by decide, by decide, by decide, by decide⟩

/-- C9 (code bug): with the Black King on e8 and an adjacent White Rook on f8
(same rank, nothing between), the in-check computation does not report `True`:
the rook branch of `_attacks` passes its alignment guard and calls the
undefined `_clear_straight`, so `_in_check` raises AttributeError (`none`),
and `get_legal_moves` for Black raises with it instead of returning a
filtered move list. -/
theorem adjacent_rook_check_crashes :
    bget c9State.board 0 4 = some ⟨.king, .black⟩ ∧
    bget c9State.board 0 5 = some ⟨.rook, .white⟩ ∧
    c9State.currentPlayer = Color.black ∧
    attacks c9State (0, 5) (0, 4) = none ∧
    inCheck c9State Color.black = none ∧
    getLegalMoves c9State = none :=
  ⟨by decide, by decide, by decide, by decide, by decide, by decide⟩

/-- Structure of a successful `_apply_move`: the castle branch never succeeds;
the board goes through the en-passant clear (when flagged), the origin clear
and the destination write of the possibly promoted piece; player, history,
en-passant target and halfmove clock are recomputed as shown. -/
theorem applyMove_struct {st : GameState} {m : Move} {st' : GameState} {p0 : Piece}
    (hp : bget st.board m.sr m.sc = some p0)
    (hap : applyMove st m = some st') :
    m.castle = none ∧
    ∃ b1 captured b2 b3,
      ((m.ep = true ∧ bset st.board m.sr m.ec none = some b1 ∧
          captured = bget st.board m.sr m.ec) ∨
        (m.ep = false ∧ b1 = st.board ∧ captured = bget st.board m.er m.ec)) ∧
      bset b1 m.sr m.sc none = some b2 ∧
      bset b2 m.er m.ec (some (promoted st m p0)) = some b3 ∧
      st'.board = b3 ∧
      st'.currentPlayer = st.currentPlayer.other ∧
      st'.history = st.history ++ [b3] ∧
      st'.enPassant = (if (promoted st m p0).kind = .pawn ∧ (m.sr - m.er).natAbs = 2 then
          some (m.er + (if st.currentPlayer = .white then 1 else -1), m.ec)
        else none) ∧
      st'.halfmove = (if (promoted st m p0).kind = .pawn ∨ captured.isSome then 0
        else st.halfmove + 1) := by
  unfold applyMove at hap
  split at hap
  case _ hnone => rw [hp] at hnone; cases hnone
  case _ piece0 heq =>
  rw [hp] at heq
  obtain rfl := Option.some.inj heq
  by_cases hcas : m.castle.isSome
  · rw [if_pos hcas] at hap; cases hap
  · rw [if_neg hcas] at hap
    refine ⟨Option.not_isSome_iff_eq_none.mp hcas, ?_⟩
    simp only [Option.bind_eq_some, Option.map_eq_some'] at hap
    obtain ⟨bc, hbc, b2, hb2, b3, hb3, chk, hchk, hst'⟩ := hap
    subst hst'
    refine ⟨bc.1, bc.2, b2, b3, ?_, hb2, hb3, rfl, rfl, rfl, rfl, rfl⟩
    cases hepv : m.ep with
    | true =>
      rw [hepv, if_pos rfl] at hbc
      simp only [Option.map_eq_some'] at hbc
      obtain ⟨b, hb, hbc⟩ := hbc
      obtain rfl := hbc
      exact Or.inl ⟨rfl, hb, rfl⟩
    | false =>
      rw [hepv, if_neg Bool.false_ne_true] at hbc
      obtain rfl := Option.some.inj hbc
      exact Or.inr ⟨rfl, rfl, rfl⟩

/-- A legal move of a pawn displacing two rows is the double advance from the
side-to-move's start row (pawn captures and en-passant displace one row). -/
theorem legal_pawn_double {st : GameState} {ms : List Move} {m : Move} {p : Piece}
    (hms : getLegalMoves st = some ms) (hm : m ∈ ms)
    (hp : bget st.board m.sr m.sc = some p) (hpk : p.kind = .pawn)
    (hd : (m.sr - m.er).natAbs = 2) :
    m.sr = pawnStartRow st ∧ m.er = m.sr + 2 * pawnDir st ∧ m.ec = m.sc ∧
      m.ep = false := by
  unfold getLegalMoves pseudoMoves at hms
  cases hps : collectMoves st squares8 with
  | none => rw [hps] at hms; exact absurd hms (by simp)
  | some pml =>
    rw [hps] at hms
    simp only [Option.some_bind] at hms
    obtain ⟨hmem, -⟩ := mem_filterLegal hms hm
    obtain ⟨sq, hsq, p', hcell, hcol, l, hpm, hml⟩ := mem_collectMoves hps hmem
    obtain ⟨hsr, hsc, -, -, -⟩ := pieceMoves_shape hcell hpm hml
    rw [hsr, hsc] at hp
    rw [hcell] at hp
    obtain rfl := Option.some.inj hp
    unfold pieceMoves at hpm
    rw [hcell] at hpm
    obtain ⟨k, pc⟩ := p'
    simp only at hpk
    subst hpk
    dsimp only at hpm
    obtain rfl := Option.some.inj hpm
    obtain ⟨-, -, -, hcases⟩ := mem_pawnMoves hml
    have habs1 : ∀ x : Int, (x - (x + pawnDir st)).natAbs = 1 := by
      intro x
      unfold pawnDir
      split_ifs <;> omega
    rcases hcases with ⟨-, -, her, -⟩ | ⟨hep, hec, her, hrow, -⟩ |
        ⟨-, her, -, -⟩ | ⟨-, her, -, -⟩
    · rw [hsr, her] at hd
      rw [habs1 sq.1] at hd
      cases hd
    · refine ⟨?_, ?_, ?_, hep⟩
      · rw [hsr, hrow]
      · rw [her, hsr]
      · rw [hec, hsc]
    · rw [hsr, her] at hd
      rw [habs1 sq.1] at hd
      cases hd
    · rw [hsr, her] at hd
      rw [habs1 sq.1] at hd
      cases hd

/-- C7: for every legal move applied on a state whose origin square holds the
piece p of the side to move: a two-square pawn advance sets the en-passant
target to the skipped-over square, any other move sets it to `none`, and when
the state carries no target, no generated legal move is an en-passant
capture (so the capture exists only on the immediately following reply). -/
theorem en_passant_target_lifecycle (st : GameState) (ms : List Move) (m : Move)
    (st' : GameState) (p : Piece)
    (hms : getLegalMoves st = some ms) (hm : m ∈ ms)
    (hp : bget st.board m.sr m.sc = some p)
    (hap : applyMove st m = some st') :
    (p.kind = .pawn ∧ (m.sr - m.er).natAbs = 2 →
        st'.enPassant = some ((m.sr + m.er) / 2, m.ec)) ∧
    (¬(p.kind = .pawn ∧ (m.sr - m.er).natAbs = 2) → st'.enPassant = none) ∧
    (st.enPassant = none → m.ep = false) := by
  obtain ⟨-, b1, captured, b2, b3, -, -, -, -, -, -, hepq, -⟩ := applyMove_struct hp hap
  refine ⟨?_, ?_, ?_⟩
  · rintro ⟨hpk, hd⟩
    obtain ⟨hstart, her, hec, -⟩ := legal_pawn_double hms hm hp hpk hd
    have hprom : promoted st m p = p := by
      unfold promoted
      rw [if_neg ?_]
      rintro ⟨-, her07⟩
      rw [her, hstart] at her07
      unfold pawnStartRow pawnDir at her07
      rcases her07 with h | h <;> split_ifs at h <;> omega
    rw [hepq, hprom, if_pos ⟨hpk, hd⟩, hec]
    have harith : m.er + (if st.currentPlayer = Color.white then 1 else -1) =
        (m.sr + m.er) / 2 := by
      rw [her, hstart]
      unfold pawnStartRow pawnDir
      split_ifs <;> omega
    rw [harith]
  · intro hnot
    rw [hepq, if_neg ?_]
    rintro ⟨hpromk, hd⟩
    apply hnot
    refine ⟨?_, hd⟩
    unfold promoted at hpromk
    split_ifs at hpromk with hcond <;> first | exact hcond.1 | exact hpromk
  · intro hepnone
    obtain ⟨p', hp', hcol, hin, hcast, hepcl, -, -⟩ := mem_getLegalMoves hms hm
    cases hepv : m.ep with
    | false => rfl
    | true =>
      obtain ⟨-, htgt⟩ := hepcl hepv
      rw [hepnone] at htgt
      cases htgt

/-- Witness for C7: the double advance e2-e4 in the small position sets the
en-passant target to the skipped square e3 = (5, 4). -/
theorem en_passant_target_lifecycle_witness :
    miniAfter.enPassant = some (5, 4) := by
  have h := (en_passant_target_lifecycle miniState miniLegal miniDouble miniAfter
    ⟨.pawn, .white⟩ getLegalMoves_mini (by decide) (by decide) (by decide)).1
    ⟨rfl, by decide⟩
  exact h.trans (by decide)

/-- C10: applying a legal move leaves every board square unchanged other than
the move's origin, its destination, and - for an en-passant capture - the
captured pawn's square beside the origin (castle-flagged moves never apply:
the rook relocation raises, so the castling-rook squares are untouched
vacuously); exactly one snapshot, the new board, is appended to the position
history; and the side to move flips. -/
theorem apply_move_frame (st : GameState) (ms : List Move) (m : Move) (st' : GameState)
    (hwf : WFState st) (hms : getLegalMoves st = some ms) (hm : m ∈ ms)
    (hap : applyMove st m = some st') :
    (∀ r c : Int, inBoard r c → (r, c) ≠ (m.sr, m.sc) → (r, c) ≠ (m.er, m.ec) →
      (m.ep = true → (r, c) ≠ (m.sr, m.ec)) →
      bget st'.board r c = bget st.board r c) ∧
    st'.history = st.history ++ [st'.board] ∧
    st'.currentPlayer = st.currentPlayer.other := by
  obtain ⟨hwfb, hwfep⟩ := hwf
  obtain ⟨p, hp, hcol, hin, hcast, hepcl, hendv, hlc⟩ := mem_getLegalMoves hms hm
  obtain ⟨-, b1, captured, b2, b3, hb1, hb2, hb3, hboard, hplayer, hhist, -, -⟩ :=
    applyMove_struct hp hap
  have hinEnd : inBoard m.er m.ec := by
    rcases hendv with hv | ⟨hept, htgt⟩
    · exact isValid_iff_inBoard.mp hv
    · exact hwfep _ htgt
  have hinClear : inBoard m.sr m.ec := ⟨hin.1, hin.2.1, hinEnd.2.2.1, hinEnd.2.2.2⟩
  have step1 : WFBoard b1 ∧ ∀ r c : Int, inBoard r c →
      (m.ep = true → (r, c) ≠ (m.sr, m.ec)) → bget b1 r c = bget st.board r c := by
    rcases hb1 with ⟨hept, hset, -⟩ | ⟨hepf, rfl, -⟩
    · obtain ⟨hwf1, hfr⟩ := bget_bset_ne hwfb hinClear hset
      exact ⟨hwf1, fun r c hrc hne => hfr r c hrc (hne hept)⟩
    · exact ⟨hwfb, fun _ _ _ _ => rfl⟩
  obtain ⟨hwf1, hfr1⟩ := step1
  obtain ⟨hwf2, hfr2⟩ := bget_bset_ne hwf1 hin hb2
  obtain ⟨hwf3, hfr3⟩ := bget_bset_ne hwf2 hinEnd hb3
  refine ⟨?_, by rw [hhist, hboard], hplayer⟩
  intro r c hrc hne1 hne2 hne3
  rw [hboard]
  rw [hfr3 r c hrc hne2, hfr2 r c hrc hne1, hfr1 r c hrc hne3]

/-- Witness for C10: after e2-e4 in the small position, a8 is untouched, one
snapshot is appended, and Black is to move. -/
theorem apply_move_frame_witness :
    bget miniAfter.board 0 0 = bget miniState.board 0 0 ∧
    miniAfter.history = miniState.history ++ [miniAfter.board] ∧
    miniAfter.currentPlayer = miniState.currentPlayer.other := by
  have h := apply_move_frame miniState miniLegal miniDouble miniAfter
    (by decide) getLegalMoves_mini (by decide) (by decide)
  exact ⟨h.1 0 0 (by decide) (by decide) (by decide) (by decide), h.2.1, h.2.2⟩

end VideoChess
